import Mathlib

/-!
Verification of the Return/Refund Lifecycle Orchestrator and the SLA
Violation Detection Engine of the TOPRISEBACKEND1 order service.

The development shallowly embeds the JavaScript sources
`src/services/order-service/src/utils/slaViolationUtils.js` and
`src/services/order-service/src/controllers/return.js` (the latter also
contains the `slaViolationMiddleware` object with `checkOrderSLAViolation`).

Modelling conventions:
* Timestamps are natural numbers counting minutes since an epoch that falls
  on a local midnight; one day is 1440 minutes and the JS `getHours()` of a
  timestamp `t` is `t / 60 % 24`.  The engine only ever compares timestamps
  and rounds millisecond differences to whole minutes
  (`Math.round((a-b)/60000)`), so at minute granularity the rounded
  difference is exactly the integer difference.
* Monetary amounts are rationals (JS numbers used for rupee amounts);
  `Math.round` is `⌊x + 1/2⌋`, matching JS round-half-up semantics.
* JS truthiness of possibly-missing strings/numbers is modelled by
  `jsTruthyStr` / `jsTruthyNat` (`undefined`, `null`, `""` and `0` are
  falsy).
* Asynchronous collaborator calls (Mongo queries, HTTP calls to the user /
  product / payment services) are supplied as explicit environment values:
  an `Except`/`Option` per call, holding what the call would have produced,
  `Except.error` / `none` standing for a thrown error or missing document.
* A controller's `sendError` early return is an `Except.error` carrying the
  message; a thrown error caught by the surrounding `try/catch` is likewise
  surfaced as the failure value the catch block builds from it.
-/

/-- JS truthiness of a possibly-undefined string (`undefined`, `null` and
`""` are falsy). -/
def jsTruthyStr : Option String → Bool
  | none => false
  | some s => s ≠ ""

/-- JS truthiness of a possibly-undefined number (`undefined`, `null` and
`0` are falsy). -/
def jsTruthyNat : Option Nat → Bool
  | none => false
  | some n => n ≠ 0

/-- JS `a || b` on possibly-undefined strings: `b` unless `a` is truthy. -/
def jsOrStr (a b : Option String) : Option String :=
  if jsTruthyStr a then a else b

/-- JS `Math.round` on a rational: round half toward positive infinity. -/
def jsRound (q : ℚ) : ℤ := ⌊q + 1 / 2⌋

/-- Local hour-of-day (`Date.getHours()`) of a minute timestamp. -/
def hourOfDay (t : ℕ) : ℕ := t / 60 % 24

/-- Midnight of the day containing minute timestamp `t`
(what `setHours(h,0,0,0)` measures from). -/
def dayStart (t : ℕ) : ℕ := t - t % 1440

/-! ## Dealer SLA configuration (models `dealerSla` / `slaType` documents) -/

/-- `sla_type` document: contracted turnaround in hours. -/
structure SLATypeRec where
  expected_hours : ℕ
deriving Repr, DecidableEq

/-- `dispatch_hours` sub-document; `startH`/`endH` model the source fields
`start`/`end` (`end` is a Lean keyword). -/
structure DispatchHours where
  startH : ℕ
  endH : ℕ
deriving Repr, DecidableEq

/-- `dealerSla` document with its populated `sla_type`. -/
structure DealerSLARec where
  is_active : Bool
  sla_type : Option SLATypeRec
  dispatch_hours : Option DispatchHours
deriving Repr, DecidableEq

/-- `calculateExpectedFulfillmentTime(orderDate, dealerSLA)` from
`slaViolationUtils.js` (the copy in `slaViolationMiddleware` is identical):
`null` without an SLA type; otherwise add `expected_hours` (the JS guards
`expected_hours` for truthiness, adding 0 hours and adding nothing agree);
then, with `dispatch_hours` configured, `setHours(start,0,0,0)` when the
hour-of-day is below `start`, and `setDate(+1); setHours(start,0,0,0)` when
it is above `end`. -/
def calculateExpectedFulfillmentTime (orderDate : ℕ) (dealerSLA : Option DealerSLARec) :
    Option ℕ :=
  match dealerSLA with
  | none => none
  | some d =>
    match d.sla_type with
    | none => none
    | some st =>
      let t1 := if st.expected_hours ≠ 0 then orderDate + st.expected_hours * 60 else orderDate
      match d.dispatch_hours with
      | none => some t1
      | some w =>
        if hourOfDay t1 < w.startH then some (dayStart t1 + w.startH * 60)
        else if hourOfDay t1 > w.endH then some (dayStart t1 + 1440 + w.startH * 60)
        else some t1

/-! ## Order aggregate (the fields the return/SLA code reads and writes) -/

/-- One element of an order item's `dealerMapped` array. -/
structure DealerMappedEntry where
  dealerId : Option String
deriving Repr, DecidableEq

/-- One element of `order.dealerMapping`. -/
structure DealerMapEntry where
  sku : String
  dealerId : Option String
deriving Repr, DecidableEq

/-- `tracking_info.timestamps` of an order item. -/
structure TrackingTimestamps where
  packedAt : Option ℕ := none
  deliveredAt : Option ℕ := none
deriving Repr, DecidableEq

/-- `tracking_info` of an order item. -/
structure TrackingInfo where
  status : String
  timestamps : TrackingTimestamps := {}
deriving Repr, DecidableEq

/-- `return_info` back-reference written onto an order item when a return
request is created. -/
structure ReturnInfo where
  is_return : Bool
  return_id : String
deriving Repr, DecidableEq

/-- One element of `order.skus`. -/
structure OrderSku where
  sku : String
  quantity : ℕ
  selling_price : ℚ
  dealerMapped : List DealerMappedEntry := []
  tracking_info : Option TrackingInfo := none
  return_info : Option ReturnInfo := none
deriving Repr, DecidableEq

/-- The SLA summary patched onto the order by
`updateOrderWithSLAViolation`. -/
structure SlaInfo where
  actualFulfillmentTime : ℕ
  isSLAMet : Bool
  violationMinutes : ℤ
  expectedFulfillmentTime : ℕ
deriving Repr, DecidableEq

/-- The order aggregate (only the fields this core touches).
`customerUserId` models `order.customerDetails?.userId`; `payment_id` is
the reference to the order's payment document. -/
structure Order where
  _id : String
  customerUserId : Option String := none
  orderDate : Option ℕ := none
  createdAt : Option ℕ := none
  skus : List OrderSku
  dealerMapping : List DealerMapEntry := []
  slaInfo : Option SlaInfo := none
  payment_id : Option String := none
deriving Repr, DecidableEq

/-! ## SKU-level SLA check (`checkSKUSLAViolation` in slaViolationUtils.js) -/

/-- The violation payload built by `checkSKUSLAViolation` (SKU level,
`sku = some _`) and by `checkSLAViolationOnPacking` (order level: the
aggregate object carries no `sku` field, hence `sku = none`).  The free-text
`notes` string is not modelled. -/
structure ViolationData where
  dealer_id : String
  order_id : String
  sku : Option String
  expected_fulfillment_time : ℕ
  actual_fulfillment_time : ℕ
  violation_minutes : ℤ
deriving Repr, DecidableEq

/-- The dealer-resolution chain of `checkSKUSLAViolation`:
`skuItem.dealerMapped?.[0]?.dealerId || order.dealerMapping.find(dm => dm.sku === sku)?.dealerId || order.dealerMapping[0]?.dealerId`. -/
def resolveDealerId (order : Order) (skuItem : OrderSku) (sku : String) : Option String :=
  jsOrStr (jsOrStr (skuItem.dealerMapped.head?.bind (·.dealerId))
      ((order.dealerMapping.find? (fun dm => dm.sku == sku)).bind (·.dealerId)))
    (order.dealerMapping.head?.bind (·.dealerId))

/-- The `order.orderDate || order.createdAt || new Date()` chain. -/
def orderDateOf (now : ℕ) (order : Order) : ℕ :=
  if jsTruthyNat order.orderDate then order.orderDate.getD now
  else if jsTruthyNat order.createdAt then order.createdAt.getD now
  else now

/-- `checkSKUSLAViolation(order, sku, packedAt)`.  The Mongo lookup
`DealerSLA.findOne({dealer_id}).populate('sla_type')` is supplied as the
environment `slaEnv`.  The JS result is `{hasViolation, violation}` with
`hasViolation === (violation !== null)` on every path, so the result is
modelled as the optional violation. -/
def checkSKUSLAViolation (slaEnv : String → Option DealerSLARec) (now : ℕ)
    (order : Order) (sku : String) (packedAt : ℕ) : Option ViolationData :=
  if order.dealerMapping.isEmpty then none
  else
    match order.skus.find? (fun s => s.sku == sku) with
    | none => none
    | some skuItem =>
      match resolveDealerId order skuItem sku with
      | none => none
      | some did =>
        if did = "" then none
        else
          match slaEnv did with
          | none => none
          | some dealerSLA =>
            if ¬dealerSLA.is_active then none
            else
              match calculateExpectedFulfillmentTime (orderDateOf now order) (some dealerSLA) with
              | none => none
              | some expected =>
                -- Math.round((packedAt − expected) / 60000); exact at minute granularity
                let violationMinutes : ℤ := (packedAt : ℤ) - (expected : ℤ)
                if violationMinutes > 0 then
                  some { dealer_id := did, order_id := order._id, sku := some sku,
                         expected_fulfillment_time := expected,
                         actual_fulfillment_time := packedAt,
                         violation_minutes := violationMinutes }
                else none

/-! ## Order-wide SLA aggregation (`checkSLAViolationOnPacking`) -/

/-- One element of the `skuViolations` array: `{sku, violation}`. -/
structure SkuViolationEntry where
  sku : String
  violation : ViolationData
deriving Repr, DecidableEq

/-- Result object of `checkSLAViolationOnPacking`. -/
structure PackingCheckResult where
  hasViolation : Bool
  violation : Option ViolationData
  skuViolations : List SkuViolationEntry
  allSkusViolated : Bool
deriving Repr, DecidableEq

/-- The filter selecting packed SKUs in `checkSLAViolationOnPacking`:
`s.tracking_info?.status === "Packed" && s.tracking_info?.timestamps?.packedAt`. -/
def isPackedWithTimestamp (s : OrderSku) : Bool :=
  match s.tracking_info with
  | none => false
  | some ti => ti.status == "Packed" && jsTruthyNat ti.timestamps.packedAt

/-- The `packedAt` a packed SKU contributes
(`skuItem.tracking_info.timestamps.packedAt || packedAt || new Date()`;
for SKUs selected by `isPackedWithTimestamp` the first disjunct is truthy). -/
def skuPackedAt (now : ℕ) (packedAtArg : Option ℕ) (s : OrderSku) : ℕ :=
  match s.tracking_info with
  | none => (if jsTruthyNat packedAtArg then packedAtArg.getD now else now)
  | some ti =>
    if jsTruthyNat ti.timestamps.packedAt then ti.timestamps.packedAt.getD now
    else if jsTruthyNat packedAtArg then packedAtArg.getD now
    else now

/-- The JS `reduce` picking the "maximum" violation.  The accumulator is a
`{sku, violation}` entry but the code compares against
`max?.violation_minutes`, a property that does not exist on that shape, so
the comparison is always against `undefined || 0 = 0`: every entry with
positive minutes replaces the accumulator and the fold yields the *last*
violated entry, not the maximal one. -/
def maxViolationOf (skuViolations : List SkuViolationEntry) : Option SkuViolationEntry :=
  skuViolations.foldl
    (fun acc sv => if sv.violation.violation_minutes > 0 then some sv else acc) none

/-- `checkSLAViolationOnPacking(order, packedAt, sku)`.  The `for` loop over
the packed SKUs pushes an entry per violated SKU in order, sets
`hasAnyViolation` when any is violated and clears `allSkusViolated` when any
is not; it is rendered by `filterMap` / `any` / `all` over the same list. -/
def checkSLAViolationOnPacking (slaEnv : String → Option DealerSLARec) (now : ℕ)
    (order : Order) (packedAtArg : Option ℕ) (skuArg : Option String) :
    PackingCheckResult :=
  if order.skus.isEmpty then
    { hasViolation := false, violation := none, skuViolations := [], allSkusViolated := false }
  else
    match skuArg with
    | some skuWanted =>
      -- single-SKU mode
      match order.skus.find? (fun s => s.sku == skuWanted) with
      | none =>
        { hasViolation := false, violation := none, skuViolations := [], allSkusViolated := false }
      | some skuItem =>
        let pAt := skuPackedAt now packedAtArg skuItem
        match checkSKUSLAViolation slaEnv now order skuWanted pAt with
        | some v =>
          { hasViolation := true, violation := some v,
            skuViolations := [⟨skuWanted, v⟩], allSkusViolated := true }
        | none =>
          { hasViolation := false, violation := none,
            skuViolations := [], allSkusViolated := false }
    | none =>
      let packedSkus := order.skus.filter isPackedWithTimestamp
      if packedSkus.isEmpty then
        { hasViolation := false, violation := none, skuViolations := [],
          allSkusViolated := false }
      else
        let skuViolations := packedSkus.filterMap (fun s =>
          (checkSKUSLAViolation slaEnv now order s.sku (skuPackedAt now packedAtArg s)).map
            (fun v => (⟨s.sku, v⟩ : SkuViolationEntry)))
        let hasAnyViolation := !skuViolations.isEmpty
        let allSkusViolated := packedSkus.all (fun s =>
          (checkSKUSLAViolation slaEnv now order s.sku (skuPackedAt now packedAtArg s)).isSome)
        let orderViolated :=
          hasAnyViolation && allSkusViolated && (skuViolations.length == packedSkus.length)
        if orderViolated then
          let maxViolation := maxViolationOf skuViolations
          { hasViolation := true,
            violation := maxViolation.map (fun mv =>
              { dealer_id := mv.violation.dealer_id, order_id := order._id,
                sku := none,  -- the aggregate object carries no `sku` field
                expected_fulfillment_time := mv.violation.expected_fulfillment_time,
                actual_fulfillment_time := mv.violation.actual_fulfillment_time,
                violation_minutes := mv.violation.violation_minutes }),
            skuViolations := skuViolations, allSkusViolated := true }
        else
          { hasViolation := false, violation := none,
            skuViolations := skuViolations, allSkusViolated := false }

/-! ## Violation ledger and the per-order sweep (`slaViolationMiddleware`) -/

/-- A persisted `SLAViolation` document. -/
structure SLAViolationRec where
  dealer_id : String
  order_id : String
  sku : Option String
  expected_fulfillment_time : ℕ
  actual_fulfillment_time : ℕ
  violation_minutes : ℤ
  resolved : Bool
deriving Repr, DecidableEq

/-- `recordSKUViolations`: each violation datum becomes an unresolved
`SLAViolation` document (`sku: violationData.sku || null`). -/
def recordSKUViolations (violations : List ViolationData) : List SLAViolationRec :=
  violations.map (fun v =>
    { dealer_id := v.dealer_id, order_id := v.order_id,
      sku := if jsTruthyStr v.sku then v.sku else none,
      expected_fulfillment_time := v.expected_fulfillment_time,
      actual_fulfillment_time := v.actual_fulfillment_time,
      violation_minutes := v.violation_minutes, resolved := false })

/-- The persisted state the sweep reads and writes: the `SLAViolation`
collection and the order's `slaInfo` patch
(`updateOrderWithSLAViolation` sets `slaInfo.isSLAMet = false` together
with the actual/expected times and the minutes). -/
structure SweepState where
  ledger : List SLAViolationRec
  orderSlaInfo : Option SlaInfo
deriving Repr, DecidableEq

/-- `updateOrderWithSLAViolation(orderId, violationData)`: patch the
order's `slaInfo` fields from the violation datum. -/
def updateOrderWithSLAViolation (v : ViolationData) : SlaInfo :=
  { actualFulfillmentTime := v.actual_fulfillment_time, isSLAMet := false,
    violationMinutes := v.violation_minutes,
    expectedFulfillmentTime := v.expected_fulfillment_time }

/-- The sweep's filter on packed SKUs (the two `!== "Delivered"` /
`!== "Cancelled"` conjuncts are redundant given `=== "Packed"` but are kept
from the source). -/
def sweepPackedFilter (s : OrderSku) : Bool :=
  match s.tracking_info with
  | none => false
  | some ti =>
    ti.status == "Packed" && jsTruthyNat ti.timestamps.packedAt &&
      ti.status != "Delivered" && ti.status != "Cancelled"

/-- `slaViolationMiddleware.checkOrderSLAViolation(order)` acting on the
persisted `SweepState`; returns the function's boolean result and the new
state.  SKU-level recording first filters out SKUs that already have an
unresolved violation for this order, then inserts the rest; the order-level
branch fires only when the aggregate says all SKUs are violated and no
unresolved `sku = null` record exists, and then only patches the order's
`slaInfo` via `updateOrderWithSLAViolation` — it inserts no ledger
record. -/
def checkOrderSLAViolation (slaEnv : String → Option DealerSLARec) (now : ℕ)
    (order : Order) (st : SweepState) : Bool × SweepState :=
  if order.skus.isEmpty then (false, st)
  else
    let packedSkus := order.skus.filter sweepPackedFilter
    if packedSkus.isEmpty then (false, st)
    else
      let slaCheck := checkSLAViolationOnPacking slaEnv now order none none
      -- record SKU-level violations idempotently
      let st1 :=
        if slaCheck.skuViolations.isEmpty then st
        else
          let wanted := slaCheck.skuViolations.map (·.sku)
          let existingViolations := st.ledger.filter (fun v =>
            v.order_id == order._id &&
              (match v.sku with | some s => wanted.contains s | none => false) &&
              v.resolved == false)
          let existingSkuSet := existingViolations.map (·.sku)
          let newViolations := slaCheck.skuViolations.filter (fun sv =>
            ¬ existingSkuSet.contains (some sv.sku))
          { st with ledger :=
              st.ledger ++ recordSKUViolations (newViolations.map (·.violation)) }
      -- order-level: only when ALL SKUs are violated
      if slaCheck.hasViolation && slaCheck.violation.isSome && slaCheck.allSkusViolated then
        let existingOrderViolation := st1.ledger.find? (fun v =>
          v.order_id == order._id && v.sku == none && v.resolved == false)
        match existingOrderViolation with
        | none =>
          match slaCheck.violation with
          | some v => (true, { st1 with orderSlaInfo := some (updateOrderWithSLAViolation v) })
          | none => (!slaCheck.skuViolations.isEmpty, st1)
        | some _ => (!slaCheck.skuViolations.isEmpty, st1)
      else
        (!slaCheck.skuViolations.isEmpty, st1)

/-! ## Eligibility evaluator (`validateReturnEligibility` in return.js) -/

/-- Response of the product-service call `GET /sku/:sku` (present = the
HTTP call returned; `none` = it threw / timed out). -/
structure ProductResp where
  success : Bool
  is_returnable : Option Bool
deriving Repr, DecidableEq

/-- Result of `validateReturnEligibility`.  The early returns (`SKU not
found in order`, `Delivery date not found`) carry only the flag and the
reason; the full path also reports the window and returnability facts. -/
structure EligibilityResult where
  isEligible : Bool
  reason : String
  isWithinReturnWindow : Option Bool := none
  isProductReturnable : Option Bool := none
  returnWindowDays : Option ℕ := none
deriving Repr, DecidableEq

/-- The `isProductReturnable` computation: start from `false`, take
`data?.is_returnable || false` only when the call returned with
`success`; a thrown call (`none`) keeps `false` — fail closed. -/
def productReturnableOf (productCall : Option ProductResp) : Bool :=
  match productCall with
  | none => false
  | some r => if r.success then r.is_returnable.getD false else false

/-- `validateReturnEligibility(order, sku)`.  `now` is `new Date()` and
`productCall` is the product-service response (`none` when the call threw:
the catch sets `isProductReturnable = false`, fail closed).  The window is
`setDate(getDate() + 7)` = 7 days past delivery and eligibility requires
`now ≤ deadline` AND returnability; the ineligibility reason tests the
window first, so window expiry wins when both conditions fail. -/
def validateReturnEligibility (now : ℕ) (productCall : Option ProductResp)
    (order : Order) (sku : String) : EligibilityResult :=
  match order.skus.find? (fun s => s.sku == sku) with
  | none => { isEligible := false, reason := "SKU not found in order" }
  | some orderSku =>
    let deliveryDate := (orderSku.tracking_info.map (·.timestamps)).bind (·.deliveredAt)
    if ¬ jsTruthyNat deliveryDate then
      { isEligible := false, reason := "Delivery date not found" }
    else
      let d := deliveryDate.getD 0
      let returnWindowDays := 7
      let returnDeadline := d + returnWindowDays * 1440
      let isWithinReturnWindow := now ≤ returnDeadline
      let isProductReturnable := productReturnableOf productCall
      let isEligible := isWithinReturnWindow && isProductReturnable
      { isEligible := isEligible,
        reason :=
          if isEligible then "Return request is eligible"
          else if ¬ isWithinReturnWindow then "Return window has expired"
          else "Product is not returnable",
        isWithinReturnWindow := some isWithinReturnWindow,
        isProductReturnable := some isProductReturnable,
        returnWindowDays := some returnWindowDays }

/-! ## ReturnRequest aggregate -/

/-- `refund` sub-record of a return request. -/
structure RefundInfo where
  refundAmount : ℚ
  processedBy : Option String := none
  processedAt : Option ℕ := none
  refundMethod : Option String := none
  refundStatus : Option String := none
  transactionId : Option String := none
  refundNotes : Option String := none
  refund_id : Option String := none
deriving Repr, DecidableEq

/-- `pickupRequest` sub-record (logistics detail collapsed to the fields
the lifecycle reads/writes). -/
structure PickupInfo where
  pickupId : Option String := none
  scheduledDate : Option ℕ := none
  trackingNumber : Option String := none
  completedDate : Option ℕ := none
deriving Repr, DecidableEq

/-- `inspection` sub-record. -/
structure InspectionInfo where
  inspectedBy : Option String := none
  inspectedAt : Option ℕ := none
  skuMatch : Option Bool := none
  condition : Option String := none
  conditionNotes : Option String := none
  inspectionImages : List String := []
  isApproved : Option Bool := none
  rejectionReason : Option String := none
deriving Repr, DecidableEq

/-- The `timestamps` ledger of a return request. -/
structure ReturnTimestamps where
  requestedAt : Option ℕ := none
  validatedAt : Option ℕ := none
  pickupScheduledAt : Option ℕ := none
  pickupCompletedAt : Option ℕ := none
  inspectionStartedAt : Option ℕ := none
  inspectionCompletedAt : Option ℕ := none
  refundProcessedAt : Option ℕ := none
  completedAt : Option ℕ := none
deriving Repr, DecidableEq

/-- One entry of the free-form `notes` list. -/
structure NoteRec where
  note : String
  addedBy : String
deriving Repr, DecidableEq

/-- The `returnStatus` strings as a closed enumeration. -/
inductive ReturnStatus where
  | Requested
  | Validated
  | Pickup_Scheduled
  | Pickup_Completed
  | Under_Inspection
  | Approved
  | Rejected
  | Refund_Processed
  | Completed
deriving Repr, DecidableEq

/-- A `Return` document. -/
structure ReturnRequest where
  _id : String
  orderId : String
  customerId : String
  sku : String
  quantity : ℕ
  returnReason : String
  returnDescription : Option String := none
  returnImages : List String := []
  isEligible : Bool
  eligibilityReason : String
  isWithinReturnWindow : Option Bool := none
  isProductReturnable : Option Bool := none
  returnWindowDays : Option ℕ := none
  originalOrderDate : Option ℕ := none
  originalDeliveryDate : Option ℕ := none
  dealerId : Option String := none
  returnStatus : ReturnStatus
  actionTaken : Option String := none
  refund : RefundInfo
  pickupRequest : PickupInfo := {}
  inspection : InspectionInfo := {}
  notes : List NoteRec := []
  timestamps : ReturnTimestamps := {}
deriving Repr, DecidableEq

/-! ## Creating a return request (`createReturnRequest` in return.js) -/

/-- The persisted state `createReturnRequest` reads and writes: the
`Return` collection and the `Order` collection (keyed by id). -/
structure Store where
  returns : List ReturnRequest
  orders : String → Option Order

/-- Request body of `createReturnRequest` (with the derived
`customerId`). -/
structure CreateReq where
  orderId : String
  sku : String
  quantity : ℕ := 1
  returnReason : String
  returnDescription : Option String := none
  returnImages : List String := []
  customerId : String
deriving Repr, DecidableEq

/-- `createReturnRequest`: the guard chain (missing fields, duplicate
(orderId, sku) return, missing order, ownership, missing SKU, quantity)
followed by eligibility evaluation, creation of the `Return` document and
the `return_info` back-patch on the order.  `now` is `new Date()`, `newId`
the generated document id, `productCall` feeds the eligibility check.  An
`Except.error` is a `sendError` early return: nothing has been written. -/
def createReturnRequest (st : Store) (productCall : Option ProductResp)
    (now : ℕ) (newId : String) (req : CreateReq) :
    Except String (ReturnRequest × Store) :=
  if req.orderId = "" ∨ req.sku = "" ∨ req.returnReason = "" ∨ req.customerId = "" then
    .error "Missing required fields: orderId, sku, returnReason, customerId"
  else if (st.returns.find? (fun r => r.orderId == req.orderId && r.sku == req.sku)).isSome then
    .error "Return request already exists for this order and SKU"
  else
    match st.orders req.orderId with
    | none => .error "Order not found"
    | some order =>
      if order.customerUserId ≠ some req.customerId then
        .error "Unauthorized: Order does not belong to customer"
      else
        match order.skus.find? (fun s => s.sku == req.sku) with
        | none => .error "SKU not found in order"
        | some orderSku =>
          if req.quantity > orderSku.quantity then
            .error "Return quantity cannot exceed ordered quantity"
          else
            let elig := validateReturnEligibility now productCall order req.sku
            let returnRequest : ReturnRequest :=
              { _id := newId, orderId := req.orderId, customerId := req.customerId,
                sku := req.sku, quantity := req.quantity,
                returnReason := req.returnReason,
                returnDescription := req.returnDescription,
                returnImages := req.returnImages,
                isEligible := elig.isEligible, eligibilityReason := elig.reason,
                isWithinReturnWindow := elig.isWithinReturnWindow,
                isProductReturnable := elig.isProductReturnable,
                returnWindowDays := elig.returnWindowDays,
                originalOrderDate := order.orderDate,
                originalDeliveryDate :=
                  ((order.skus.find? (fun s => s.sku == req.sku)).bind
                    (·.tracking_info)).bind (·.timestamps.deliveredAt),
                dealerId := orderSku.dealerMapped.head?.bind (·.dealerId),
                returnStatus := if elig.isEligible then .Validated else .Requested,
                refund := { refundAmount := orderSku.selling_price * req.quantity },
                timestamps := { requestedAt := some now,
                                validatedAt := if elig.isEligible then some now else none } }
            let order' : Order :=
              { order with skus := order.skus.map (fun s =>
                  if s.sku == req.sku then
                    { s with return_info := some { is_return := true, return_id := newId } }
                  else s) }
            .ok (returnRequest,
              { returns := st.returns ++ [returnRequest],
                orders := fun oid => if oid = req.orderId then some order' else st.orders oid })

/-- The persisted `Return` collection after a create call: unchanged when
the controller answered with `sendError`. -/
def commitCreate (st : Store) (out : Except String (ReturnRequest × Store)) : Store :=
  match out with
  | .ok (_, st') => st'
  | .error _ => st

/-! ## Lifecycle transitions (controllers 2–8 in return.js)

Each controller loads the `Return` document, checks the status
precondition, mutates and saves.  They are modelled as functions
`ReturnRequest → Except String ReturnRequest`; an `Except.error` is the
`sendError` answer sent *before* any `save()`, so the stored document is
untouched.  `commitOp` is the resulting stored document. -/

/-- Stored document after an operation: the saved value on success, the
untouched original on a precondition failure. -/
def commitOp (r : ReturnRequest) (out : Except String ReturnRequest) : ReturnRequest :=
  match out with
  | .ok r' => r'
  | .error _ => r

/-- `validateReturnRequest` (controller 2): re-runs eligibility against the
current order and always stamps `validatedAt`; no status precondition. -/
def validateReturnRequest (orderLookup : Option Order) (productCall : Option ProductResp)
    (now : ℕ) (r : ReturnRequest) : Except String ReturnRequest :=
  match orderLookup with
  | none => .error "Order not found"
  | some order =>
    let elig := validateReturnEligibility now productCall order r.sku
    .ok { r with
      isEligible := elig.isEligible, eligibilityReason := elig.reason,
      isWithinReturnWindow := elig.isWithinReturnWindow,
      isProductReturnable := elig.isProductReturnable,
      returnStatus := if elig.isEligible then .Validated else .Requested,
      timestamps := { r.timestamps with validatedAt := some now } }

/-- `schedulePickup` (controller 3): requires `Validated`; merges the
logistics booking (supplied as `pickup`; carrier failure already degraded
to a synthesized placeholder inside `createLogisticsPickupRequest`). -/
def schedulePickup (pickup : PickupInfo) (now : ℕ) (r : ReturnRequest) :
    Except String ReturnRequest :=
  if r.returnStatus ≠ .Validated then
    .error "Return request must be validated before scheduling pickup"
  else
    .ok { r with returnStatus := .Pickup_Scheduled,
                 pickupRequest := pickup,
                 timestamps := { r.timestamps with pickupScheduledAt := some now } }

/-- `completePickup` (controller 4): requires `Pickup_Scheduled`. -/
def completePickup (trackingNumber : String) (now : ℕ) (r : ReturnRequest) :
    Except String ReturnRequest :=
  if r.returnStatus ≠ .Pickup_Scheduled then
    .error "Return request must be in Pickup_Scheduled status"
  else
    .ok { r with returnStatus := .Pickup_Completed,
                 pickupRequest := { r.pickupRequest with
                   completedDate := some now, trackingNumber := some trackingNumber },
                 timestamps := { r.timestamps with pickupCompletedAt := some now } }

/-- `startInspection` (controller 5): requires `Pickup_Completed`. -/
def startInspection (staffId : String) (now : ℕ) (r : ReturnRequest) :
    Except String ReturnRequest :=
  if r.returnStatus ≠ .Pickup_Completed then
    .error "Return request must be in Pickup_Completed status"
  else
    .ok { r with returnStatus := .Under_Inspection,
                 inspection := { r.inspection with
                   inspectedBy := some staffId, inspectedAt := some now },
                 timestamps := { r.timestamps with inspectionStartedAt := some now } }

/-- Body of `completeInspection` (controller 6). -/
structure InspectionReq where
  skuMatch : Option Bool := none
  condition : Option String := none
  conditionNotes : Option String := none
  inspectionImages : List String := []
  isApproved : Bool
  rejectionReason : Option String := none
deriving Repr, DecidableEq

/-- `completeInspection` (controller 6): requires `Under_Inspection`;
`Approved`/`Rejected` comes solely from the caller's `isApproved` flag. -/
def completeInspection (body : InspectionReq) (now : ℕ) (r : ReturnRequest) :
    Except String ReturnRequest :=
  if r.returnStatus ≠ .Under_Inspection then
    .error "Return request must be in Under_Inspection status"
  else
    .ok { r with
      returnStatus := if body.isApproved then .Approved else .Rejected,
      actionTaken := some (if body.isApproved then "Refund" else "Rejected"),
      inspection := { r.inspection with
        skuMatch := body.skuMatch, condition := body.condition,
        conditionNotes := body.conditionNotes,
        inspectionImages := body.inspectionImages,
        isApproved := some body.isApproved,
        rejectionReason := body.rejectionReason },
      timestamps := { r.timestamps with inspectionCompletedAt := some now } }

/-- `completeReturn` (controller 8): requires `Refund_Processed`. -/
def completeReturn (now : ℕ) (r : ReturnRequest) : Except String ReturnRequest :=
  if r.returnStatus ≠ .Refund_Processed then
    .error "Return request must have refund processed before completion"
  else
    .ok { r with returnStatus := .Completed,
                 timestamps := { r.timestamps with completedAt := some now } }

/-- `addNote`: appends to the notes list (no precondition). -/
def addNote (note addedBy : String) (r : ReturnRequest) : Except String ReturnRequest :=
  .ok { r with notes := r.notes ++ [⟨note, addedBy⟩] }

/-! ## Refund processor (`processRefundPayment` in return.js) -/

/-- `bank_details` of a user profile. -/
structure BankDetails where
  account_number : Option String := none
  ifsc_code : Option String := none
  bank_account_holder_name : Option String := none
deriving Repr, DecidableEq

/-- The slice of the user-service response the processor reads. -/
structure UserData where
  bank_details : Option BankDetails := none
deriving Repr, DecidableEq

/-- The order's `Payment` document; `payment_id` is the Razorpay payment id
of the original capture. -/
structure PaymentRec where
  payment_id : Option String := none
deriving Repr, DecidableEq

/-- Response of a successful Razorpay payout creation. -/
structure PayoutResp where
  id : String
  status : String
deriving Repr, DecidableEq

/-- Response of `GET /v1/payments/:id` (`amount` and `amount_refunded` in
paise; the source applies `|| 0` to each). -/
structure PaymentDetailsResp where
  amount : ℤ
  amount_refunded : ℤ
deriving Repr, DecidableEq

/-- Response of the Razorpay refund call. -/
structure RefundResp where
  id : String
  status : String
  error_description : Option String := none
deriving Repr, DecidableEq

/-- Outcomes of every collaborator call `processRefundPayment` can make,
supplied up front: `Option` for Mongo lookups (missing document), `Except`
for HTTP calls (`error` = thrown/timeout, carrying the message the catch
block would extract). -/
structure RefundEnv where
  order : Option Order
  payment : Option PaymentRec
  user : Option UserData := none
  contact : Except String String := .error "user fetch failed"
  fund : Except String String := .error "user fetch failed"
  payout : Except String PayoutResp := .error "user fetch failed"
  paymentDetails : Except String PaymentDetailsResp := .error "payment fetch failed"
  refundCall : Except String RefundResp := .error "refund call failed"

/-- A persisted `Refund` ledger document (created only after a provider
success; `refund_type` is `"Refund-COD"` on the payout path and
`"Refund-Online"` on the source path). -/
structure RefundRecord where
  order_id : String
  return_id : String
  razorpay_payout_id : Option String := none
  razorpay_refund_id : Option String := none
  amount : ℚ
  status : String
  refund_type : String
deriving Repr, DecidableEq

/-- The normalized result object `processRefundPayment` returns. -/
structure RefundResult where
  success : Bool
  transactionId : Option String := none
  refundType : Option String := none
  message : String
deriving Repr, DecidableEq

/-- One run of `processRefundPayment`: its result, the `Refund` documents
it persisted, the saved `ReturnRequest` (the run stamps
`refund.refund_id`), and the paise amounts it actually sent to the
provider (payout `amount` / refund `amount` fields), in call order. -/
structure RefundRun where
  result : RefundResult
  ledger : List RefundRecord
  request : ReturnRequest
  providerAmounts : List ℤ
deriving Repr, DecidableEq

/-- `hasBankAccount`: the user fetch succeeded and `bank_details` has a
truthy account number, IFSC code and holder name (a failed fetch degrades
to `false`). -/
def hasBankAccount (user : Option UserData) : Bool :=
  match user with
  | none => false
  | some u =>
    match u.bank_details with
    | none => false
    | some b =>
      jsTruthyStr b.account_number && jsTruthyStr b.ifsc_code &&
        jsTruthyStr b.bank_account_holder_name

/-- The strategy selector `useBankPayout`:
`hasBankAccount && (refundMethod === "Bank_Account" || refundMethod === "Wallet" || !payment.payment_id)`. -/
def useBankPayout (user : Option UserData) (payment : PaymentRec)
    (refundMethod : String) : Bool :=
  hasBankAccount user &&
    (refundMethod == "Bank_Account" || refundMethod == "Wallet" ||
      !jsTruthyStr payment.payment_id)

/-- The bank-payout attempt (contact → fund account → payout).  `none`
means some step threw and the inner catch fell through to the source
path; `some` carries the success result, the saved ledger entry and the
saved request.  The second component lists the paise amounts sent: the
payout request is issued (with `Math.round(refundAmount*100)`) once contact
and fund-account creation succeeded, whether or not the payout itself
succeeds. -/
def bankPayoutAttempt (env : RefundEnv) (order : Order) (rr : ReturnRequest) :
    Option (RefundResult × RefundRecord × ReturnRequest) × List ℤ :=
  match env.contact with
  | .error _ => (none, [])
  | .ok _contactId =>
    match env.fund with
    | .error _ => (none, [])
    | .ok _fundAccountId =>
      let amt := jsRound (rr.refund.refundAmount * 100)
      match env.payout with
      | .error _ => (none, [amt])
      | .ok p =>
        let entry : RefundRecord :=
          { order_id := order._id, return_id := rr._id,
            razorpay_payout_id := some p.id,
            amount := rr.refund.refundAmount, status := p.status,
            refund_type := "Refund-COD" }
        let rr' := { rr with refund := { rr.refund with refund_id := some p.id } }
        let res : RefundResult :=
          { success := true, transactionId := some p.id,
            refundType := some "Bank_Payout",
            message := "Refund processed successfully to bank account" }
        (some (res, entry, rr'), [amt])

/-- Message of the `InsufficientBalance` throw (the source interpolates the
two amounts into this text). -/
def insufficientBalanceMsg : String := "Refund amount exceeds available balance"

/-- A run that ended in the outer catch block: `{success:false, message}`,
nothing persisted, the request untouched. -/
def failedRun (rr : ReturnRequest) (msg : String) (amts : List ℤ) : RefundRun :=
  { result := { success := false, message := msg },
    ledger := [], request := rr, providerAmounts := amts }

/-- The source-refund path: requires a truthy original `payment_id`,
fetches the payment, rejects when `Math.round(refundAmount*100)` exceeds
`amount − amount_refunded`, issues the refund call and treats provider
status `"failed"` as an error.  Thrown errors become the catch block's
`{success:false, message}` with nothing persisted. -/
def sourceRefundPath (env : RefundEnv) (order : Order) (payment : PaymentRec)
    (rr : ReturnRequest) : RefundRun :=
  if ¬ jsTruthyStr payment.payment_id then
    failedRun rr "Payment ID not found. Cannot process refund to source account." []
  else
    match env.paymentDetails with
    | .error e => failedRun rr e []
    | .ok pd =>
      let capturedAmount := pd.amount
      let alreadyRefunded := pd.amount_refunded
      let requestedRefundAmount := jsRound (rr.refund.refundAmount * 100)
      let refundableBalance := capturedAmount - alreadyRefunded
      if requestedRefundAmount > refundableBalance then
        failedRun rr insufficientBalanceMsg []
      else
        match env.refundCall with
        | .error e => failedRun rr e [requestedRefundAmount]
        | .ok resp =>
          if resp.status == "failed" then
            failedRun rr ("Refund failed: " ++ resp.error_description.getD "Unknown error")
              [requestedRefundAmount]
          else
            let entry : RefundRecord :=
              { order_id := order._id, return_id := rr._id,
                razorpay_refund_id := some resp.id,
                amount := rr.refund.refundAmount, status := resp.status,
                refund_type := "Refund-Online" }
            let res : RefundResult :=
              { success := true, transactionId := some resp.id,
                refundType := some "Source_Refund",
                message := "Refund processed successfully to source account" }
            { result := res, ledger := [entry],
              request := { rr with refund := { rr.refund with refund_id := some resp.id } },
              providerAmounts := [requestedRefundAmount] }

/-- `processRefundPayment(returnRequest, refundMethod)`: fatal when the
order or its payment document is missing; otherwise the strategy selector
picks the bank-payout path, whose failure at any step falls back to the
source-refund path; with the selector false the source path runs
directly. -/
def processRefundPayment (env : RefundEnv) (rr : ReturnRequest)
    (refundMethod : String) : RefundRun :=
  match env.order with
  | none =>
    { result := { success := false, message := "Order not found for return request" },
      ledger := [], request := rr, providerAmounts := [] }
  | some order =>
    match env.payment with
    | none =>
      { result := { success := false, message := "Payment not found for order" },
        ledger := [], request := rr, providerAmounts := [] }
    | some payment =>
      if useBankPayout env.user payment refundMethod then
        match bankPayoutAttempt env order rr with
        | (some (res, entry, rr'), amts) =>
          { result := res, ledger := [entry], request := rr', providerAmounts := amts }
        | (none, amts) =>
          let s := sourceRefundPath env order payment rr
          { s with providerAmounts := amts ++ s.providerAmounts }
      else
        sourceRefundPath env order payment rr

/-- `processRefund` (controller 7): requires `Approved`; delegates to
`processRefundPayment`; a failed run is refused (`sendError`) leaving the
stored request untouched; a successful run advances to `Refund_Processed`
and stamps the refund sub-record.  Returns the controller outcome plus the
ledger entries the run persisted. -/
def processRefund (env : RefundEnv) (adminId refundMethod : String)
    (refundNotes : Option String) (now : ℕ) (r : ReturnRequest) :
    Except String ReturnRequest × List RefundRecord :=
  if r.returnStatus ≠ .Approved then
    (.error "Return request must be approved before processing refund", [])
  else
    let run := processRefundPayment env r refundMethod
    if ¬ run.result.success then
      (.error ("Refund processing failed: " ++ run.result.message), run.ledger)
    else
      (.ok { run.request with
          returnStatus := .Refund_Processed,
          refund := { run.request.refund with
            processedBy := some adminId, processedAt := some now,
            refundMethod := some refundMethod, refundStatus := some "Completed",
            transactionId := run.result.transactionId, refundNotes := refundNotes },
          timestamps := { run.request.timestamps with refundProcessedAt := some now } },
        run.ledger)

/-! ## Concrete fixtures used by the witnesses and counterexamples

A dealer `D1` with an active 24-hour SLA and no dispatch window; an order
`O1` placed at minute 1440 (so its SLA deadline is minute 2880) with two
packed SKUs `A` and `B`.  `A` is packed at 2910 (30 minutes late); `B` is
packed either at 2890 (10 minutes late) or at 2875 (5 minutes early). -/

/-- Dealer-SLA lookup: only `D1` is configured (active, 24 h, no window). -/
def demoSlaEnv : String → Option DealerSLARec := fun d =>
  if d = "D1" then some { is_active := true, sla_type := some ⟨24⟩, dispatch_hours := none }
  else none

/-- SKU `A`, packed 30 minutes past the deadline. -/
def demoSkuA : OrderSku :=
  { sku := "A", quantity := 2, selling_price := 100, dealerMapped := [⟨some "D1"⟩],
    tracking_info := some { status := "Packed", timestamps := { packedAt := some 2910 } } }

/-- SKU `B`, packed 10 minutes past the deadline. -/
def demoSkuBLate : OrderSku :=
  { sku := "B", quantity := 1, selling_price := 50, dealerMapped := [⟨some "D1"⟩],
    tracking_info := some { status := "Packed", timestamps := { packedAt := some 2890 } } }

/-- SKU `B`, packed 5 minutes before the deadline (on time). -/
def demoSkuBOnTime : OrderSku :=
  { sku := "B", quantity := 1, selling_price := 50, dealerMapped := [⟨some "D1"⟩],
    tracking_info := some { status := "Packed", timestamps := { packedAt := some 2875 } } }

/-- Order `O1` with both SKUs late. -/
def demoOrderAllLate : Order :=
  { _id := "O1", customerUserId := some "C1", orderDate := some 1440,
    skus := [demoSkuA, demoSkuBLate],
    dealerMapping := [⟨"A", some "D1"⟩, ⟨"B", some "D1"⟩] }

/-- Order `O1` with `A` late and `B` on time. -/
def demoOrderPartial : Order :=
  { demoOrderAllLate with skus := [demoSkuA, demoSkuBOnTime] }

/-- SKU `A` of the delivered order: quantity 2, price 100, delivered at
minute 1440. -/
def demoDeliveredSku : OrderSku :=
  { sku := "A", quantity := 2, selling_price := 100,
    dealerMapped := [⟨some "D1"⟩],
    tracking_info := some { status := "Delivered",
                            timestamps := { deliveredAt := some 1440 } } }

/-- A delivered order for the return-request fixtures: one SKU `A`
(quantity 2, price 100) delivered at minute 1440 and owned by `C1`. -/
def demoDeliveredOrder : Order :=
  { _id := "O2", customerUserId := some "C1", orderDate := some 100,
    skus := [demoDeliveredSku],
    dealerMapping := [⟨"A", some "D1"⟩] }

/-- A store holding only `demoDeliveredOrder` and no return requests. -/
def demoStore : Store :=
  { returns := [],
    orders := fun oid => if oid = "O2" then some demoDeliveredOrder else none }

/-- A generic approved return request over `demoDeliveredOrder`
(refund amount 100 × 2 = 200). -/
def demoApprovedReturn : ReturnRequest :=
  { _id := "R1", orderId := "O2", customerId := "C1", sku := "A", quantity := 2,
    returnReason := "damaged", isEligible := true,
    eligibilityReason := "Return request is eligible",
    returnStatus := .Approved, refund := { refundAmount := 200 } }

/-- A refund environment where the customer has complete bank details, the
original payment has a provider id, payout creation fails at the payout
step, and the source-refund call succeeds (captured 50000 paise, nothing
refunded yet). -/
def demoFallbackEnv : RefundEnv :=
  { order := some demoDeliveredOrder,
    payment := some { payment_id := some "pay_1" },
    user := some { bank_details := some { account_number := some "123",
                                          ifsc_code := some "HDFC0000001",
                                          bank_account_holder_name := some "C One" } },
    contact := .ok "cont_1", fund := .ok "fa_1",
    payout := .error "payout creation failed",
    paymentDetails := .ok { amount := 50000, amount_refunded := 0 },
    refundCall := .ok { id := "rfnd_1", status := "processed" } }

/-- A refund environment with no bank account where the requested amount
exceeds the refundable balance (captured 10000 paise, 0 refunded, request
20000 paise). -/
def demoInsufficientEnv : RefundEnv :=
  { order := some demoDeliveredOrder,
    payment := some { payment_id := some "pay_1" },
    user := none,
    paymentDetails := .ok { amount := 10000, amount_refunded := 0 },
    refundCall := .ok { id := "rfnd_2", status := "processed" } }

/-- The unresolved SKU-level violation record the sweep writes for SKU `A`
of the fixture order (30 minutes late). -/
def demoViolationRecA : SLAViolationRec :=
  { dealer_id := "D1", order_id := "O1", sku := some "A",
    expected_fulfillment_time := 2880, actual_fulfillment_time := 2910,
    violation_minutes := 30, resolved := false }

/-- The unresolved SKU-level violation record the sweep writes for SKU `B`
of the all-late fixture order (10 minutes late). -/
def demoViolationRecB : SLAViolationRec :=
  { dealer_id := "D1", order_id := "O1", sku := some "B",
    expected_fulfillment_time := 2880, actual_fulfillment_time := 2890,
    violation_minutes := 10, resolved := false }

/-- A dealer SLA with a 3-hour turnaround and dispatch window `[9,18)`,
used by witnesses. -/
def demoWindowSla : DealerSLARec :=
  { is_active := true, sla_type := some ⟨3⟩, dispatch_hours := some ⟨9, 18⟩ }

/-- A refund environment whose source-refund call reports provider status
`"failed"` (captured 50000 paise, nothing refunded). -/
def demoFailedRefundEnv : RefundEnv :=
  { order := some demoDeliveredOrder,
    payment := some { payment_id := some "pay_1" },
    user := none,
    paymentDetails := .ok { amount := 50000, amount_refunded := 0 },
    refundCall := .ok { id := "rfnd_3", status := "failed" } }

/-- The approved fixture request, still in status `Validated`. -/
def demoValidatedReturn : ReturnRequest :=
  { demoApprovedReturn with returnStatus := .Validated }

/-- A store that already holds a return request for `(O2, A)`. -/
def demoStoreWithReturn : Store :=
  { returns := [demoApprovedReturn], orders := demoStore.orders }

/-! # Theorems -/

lemma mod1440_eq (t : ℕ) : t % 1440 = hourOfDay t * 60 + t % 60 := by
  unfold hourOfDay
  have h1 : t / 60 / 24 = t / 1440 := by
    rw [Nat.div_div_eq_div_mul]
  omega

lemma dayStart_add_mod (t : ℕ) : dayStart t + t % 1440 = t := by
  unfold dayStart
  omega

lemma dayStart_mod (t : ℕ) : dayStart t % 1440 = 0 := by
  unfold dayStart
  omega

lemma hourOfDay_dayStart_add (t s : ℕ) (hs : s < 24) :
    hourOfDay (dayStart t + s * 60) = s := by
  have h0 := dayStart_mod t
  unfold hourOfDay dayStart at *
  omega

lemma calc_t1 (orderDate h : ℕ) :
    (if h = 0 then orderDate else orderDate + h * 60) = orderDate + h * 60 := by
  by_cases hh : h = 0 <;> simp [hh]

lemma calc_isSome (orderDate : ℕ) (d : DealerSLARec) (st : SLATypeRec)
    (hst : d.sla_type = some st) :
    (calculateExpectedFulfillmentTime orderDate (some d)).isSome = true := by
  simp only [calculateExpectedFulfillmentTime, hst]
  cases hdh : d.dispatch_hours with
  | none => simp
  | some w =>
    dsimp only
    split <;> split <;> (try split) <;> simp

/-- C6: for every `orderDate` and `dealerSLA` the SLA calculator returns
`null` iff no SLA type is configured; otherwise it adds `expected_hours`
to `orderDate`, and when a dispatch-hour window `[start,end)` is
configured it moves a result whose hour-of-day falls before `start`
forward to `start:00` of the same day, rolls a result whose hour-of-day
falls after `end` to `start:00` of the next day, and leaves a result whose
hour-of-day lies inside the window unchanged. -/
theorem claim_C6_sla_calculator :
    (∀ (orderDate : ℕ) (dsla : Option DealerSLARec),
        calculateExpectedFulfillmentTime orderDate dsla = none ↔
          dsla = none ∨ ∃ d, dsla = some d ∧ d.sla_type = none) ∧
    (∀ (orderDate : ℕ) (d : DealerSLARec) (st : SLATypeRec),
        d.sla_type = some st → d.dispatch_hours = none →
        calculateExpectedFulfillmentTime orderDate (some d) =
          some (orderDate + st.expected_hours * 60)) ∧
    (∀ (orderDate : ℕ) (d : DealerSLARec) (st : SLATypeRec) (w : DispatchHours),
        d.sla_type = some st → d.dispatch_hours = some w →
        (hourOfDay (orderDate + st.expected_hours * 60) < w.startH →
          calculateExpectedFulfillmentTime orderDate (some d) =
            some (dayStart (orderDate + st.expected_hours * 60) + w.startH * 60) ∧
          orderDate + st.expected_hours * 60 <
            dayStart (orderDate + st.expected_hours * 60) + w.startH * 60 ∧
          (w.startH < 24 →
            dayStart (dayStart (orderDate + st.expected_hours * 60) + w.startH * 60) =
              dayStart (orderDate + st.expected_hours * 60) ∧
            hourOfDay (dayStart (orderDate + st.expected_hours * 60) + w.startH * 60) =
              w.startH)) ∧
        (w.startH ≤ hourOfDay (orderDate + st.expected_hours * 60) →
          hourOfDay (orderDate + st.expected_hours * 60) > w.endH →
          calculateExpectedFulfillmentTime orderDate (some d) =
            some (dayStart (orderDate + st.expected_hours * 60) + 1440 + w.startH * 60) ∧
          (w.startH < 24 →
            dayStart (dayStart (orderDate + st.expected_hours * 60) + 1440 + w.startH * 60) =
              dayStart (orderDate + st.expected_hours * 60) + 1440 ∧
            hourOfDay (dayStart (orderDate + st.expected_hours * 60) + 1440 + w.startH * 60) =
              w.startH)) ∧
        (w.startH ≤ hourOfDay (orderDate + st.expected_hours * 60) →
          hourOfDay (orderDate + st.expected_hours * 60) < w.endH →
          calculateExpectedFulfillmentTime orderDate (some d) =
            some (orderDate + st.expected_hours * 60))) := by
  refine ⟨?_, ?_, ?_⟩
  · intro orderDate dsla
    match dsla with
    | none => simp [calculateExpectedFulfillmentTime]
    | some d =>
      match hd : d.sla_type with
      | none => simp [calculateExpectedFulfillmentTime, hd]
      | some st =>
        constructor
        · intro h
          have hs := calc_isSome orderDate d st hd
          rw [h] at hs
          simp at hs
        · rintro (h | ⟨d', hd', hnone⟩)
          · exact absurd h (by simp)
          · rw [Option.some_inj] at hd'
            subst hd'
            simp [hd] at hnone
  · intro orderDate d st hst hw
    simp [calculateExpectedFulfillmentTime, hst, hw, calc_t1]
  · intro orderDate d st w hst hw
    refine ⟨?_, ?_, ?_⟩
    · intro hlt
      refine ⟨?_, ?_, ?_⟩
      · simp [calculateExpectedFulfillmentTime, hst, hw, calc_t1, hlt]
      · have h1 := mod1440_eq (orderDate + st.expected_hours * 60)
        have h2 := dayStart_add_mod (orderDate + st.expected_hours * 60)
        omega
      · intro hs
        constructor
        · have h0 := dayStart_mod (orderDate + st.expected_hours * 60)
          unfold dayStart at *
          omega
        · exact hourOfDay_dayStart_add _ _ hs
    · intro hge hgt
      have hcase : ¬ hourOfDay (orderDate + st.expected_hours * 60) < w.startH := by omega
      refine ⟨?_, ?_⟩
      · simp [calculateExpectedFulfillmentTime, hst, hw, calc_t1, hcase, hgt]
      · intro hs
        constructor
        · have h0 := dayStart_mod (orderDate + st.expected_hours * 60)
          unfold dayStart at *
          omega
        · have h0 := dayStart_mod (orderDate + st.expected_hours * 60)
          unfold hourOfDay dayStart at *
          omega
    · intro hge hlt
      have hcase : ¬ hourOfDay (orderDate + st.expected_hours * 60) < w.startH := by omega
      have hcase2 : ¬ w.endH < hourOfDay (orderDate + st.expected_hours * 60) := by omega
      simp [calculateExpectedFulfillmentTime, hst, hw, calc_t1, hcase, hcase2]

/-- Witness for C6: a 02:00 order with a 3-hour SLA inside window `[9,18)`
is clamped to 09:00 the same day; a 17:00 order rolls to 09:00 the next
day; a 13:00 order stays at 16:00; and the window-free 24-hour dealer
adds exactly 24 hours. -/
theorem claim_C6_sla_calculator_witness :
    calculateExpectedFulfillmentTime 120 (some demoWindowSla) = some 540 ∧
    calculateExpectedFulfillmentTime (17 * 60) (some demoWindowSla) = some 1980 ∧
    calculateExpectedFulfillmentTime (13 * 60) (some demoWindowSla) = some 960 ∧
    calculateExpectedFulfillmentTime 600
      (some { is_active := true, sla_type := some ⟨24⟩, dispatch_hours := none }) =
      some 2040 := by
  refine ⟨?_, ?_, ?_, ?_⟩
  · exact ((claim_C6_sla_calculator.2.2 120 demoWindowSla ⟨3⟩ ⟨9, 18⟩ rfl rfl).1
      (by decide)).1
  · exact ((claim_C6_sla_calculator.2.2 (17 * 60) demoWindowSla ⟨3⟩ ⟨9, 18⟩ rfl rfl).2.1
      (by decide) (by decide)).1
  · exact (claim_C6_sla_calculator.2.2 (13 * 60) demoWindowSla ⟨3⟩ ⟨9, 18⟩ rfl rfl).2.2
      (by decide) (by decide)
  · exact claim_C6_sla_calculator.2.1 600
      { is_active := true, sla_type := some ⟨24⟩, dispatch_hours := none } ⟨24⟩ rfl rfl

/-- C7: for every packed SKU checked by `checkSKUSLAViolation` (with the
guard chain satisfied: dealer mapping present, SKU found, dealer resolved,
active SLA config, expected time computable), the reported
`violation_minutes` is exactly `packedAt − expectedFulfillmentTime` in
minutes and a violation is reported iff it is positive, carrying the
resolved dealer; and the dealer resolution gives the SKU-level
`dealerMapped` entry precedence over the order-level mapping. -/
theorem claim_C7_sku_violation_check :
    (∀ (slaEnv : String → Option DealerSLARec) (now : ℕ) (order : Order)
        (skuItem : OrderSku) (sku : String) (packedAt : ℕ) (did : String)
        (dealerSLA : DealerSLARec) (expected : ℕ),
        order.dealerMapping.isEmpty = false →
        order.skus.find? (fun s => s.sku == sku) = some skuItem →
        resolveDealerId order skuItem sku = some did → did ≠ "" →
        slaEnv did = some dealerSLA → dealerSLA.is_active = true →
        calculateExpectedFulfillmentTime (orderDateOf now order) (some dealerSLA) =
          some expected →
        ((checkSKUSLAViolation slaEnv now order sku packedAt).isSome = true ↔
          (packedAt : ℤ) - (expected : ℤ) > 0) ∧
        (∀ v, checkSKUSLAViolation slaEnv now order sku packedAt = some v →
          v.violation_minutes = (packedAt : ℤ) - (expected : ℤ) ∧ v.dealer_id = did ∧
          v.sku = some sku ∧ v.expected_fulfillment_time = expected ∧
          v.actual_fulfillment_time = packedAt)) ∧
    (∀ (order : Order) (skuItem : OrderSku) (sku : String) (dm : DealerMappedEntry),
        skuItem.dealerMapped.head? = some dm → jsTruthyStr dm.dealerId = true →
        resolveDealerId order skuItem sku = dm.dealerId) := by
  constructor
  · intro slaEnv now order skuItem sku packedAt did dealerSLA expected
    intro hne hfind hres hdid henv hact hcalc
    simp only [checkSKUSLAViolation, hne, hfind, hres, hdid, henv, hact, hcalc]
    simp only [Bool.false_eq_true, if_false, if_neg hdid, not_true, Bool.not_true]
    constructor
    · constructor
      · intro h
        by_cases hpos : (packedAt : ℤ) - (expected : ℤ) > 0
        · exact hpos
        · simp [hpos] at h
      · intro hpos
        simp [hpos]
    · intro v hv
      by_cases hpos : (packedAt : ℤ) - (expected : ℤ) > 0
      · simp only [if_pos hpos] at hv
        rw [Option.some_inj] at hv
        subst hv
        simp
      · simp [hpos] at hv
  · intro order skuItem sku dm hhead htruthy
    simp [resolveDealerId, jsOrStr, hhead, htruthy]

/-- Witness for C7: in the fixture order, SKU `A` packed at minute 2910
against the 2880 deadline is flagged (30 minutes late) and its dealer
resolves to the SKU-level mapping `D1`. -/
theorem claim_C7_sku_violation_check_witness :
    (checkSKUSLAViolation demoSlaEnv 999 demoOrderAllLate "A" 2910).isSome = true ∧
    resolveDealerId demoOrderAllLate demoSkuA "A" = some "D1" := by
  constructor
  · exact ((claim_C7_sku_violation_check.1 demoSlaEnv 999 demoOrderAllLate demoSkuA "A"
      2910 "D1" { is_active := true, sla_type := some ⟨24⟩, dispatch_hours := none }
      2880 (by decide) (by decide) (by decide) (by decide) rfl rfl (by decide)).1).mpr
      (by decide)
  · exact claim_C7_sku_violation_check.2 demoOrderAllLate demoSkuA "A" ⟨some "D1"⟩ rfl
      (by decide)

/-- C8: the eligibility evaluator is ineligible with reason `"Delivery
date not found"` when the SKU has no delivery timestamp; otherwise
`isEligible = (now ≤ deliveredAt + 7 days) && isReturnable`, where a
failed or unsuccessful product-catalog call yields `isReturnable = false`
(fail closed); and whenever the window has expired the reason is the
window-expiry message (so window expiry wins when both conditions
fail). -/
theorem claim_C8_return_eligibility :
    (∀ (now : ℕ) (pc : Option ProductResp) (order : Order) (sku : String)
        (skuItem : OrderSku),
        order.skus.find? (fun s => s.sku == sku) = some skuItem →
        jsTruthyNat ((skuItem.tracking_info.map (·.timestamps)).bind (·.deliveredAt)) =
          false →
        validateReturnEligibility now pc order sku =
          { isEligible := false, reason := "Delivery date not found" }) ∧
    (productReturnableOf none = false ∧
      ∀ r : ProductResp, r.success = false → productReturnableOf (some r) = false) ∧
    (∀ (now : ℕ) (pc : Option ProductResp) (order : Order) (sku : String)
        (skuItem : OrderSku) (d : ℕ),
        order.skus.find? (fun s => s.sku == sku) = some skuItem →
        (skuItem.tracking_info.map (·.timestamps)).bind (·.deliveredAt) = some d →
        d ≠ 0 →
        ((validateReturnEligibility now pc order sku).isEligible =
          (decide (now ≤ d + 7 * 1440) && productReturnableOf pc)) ∧
        (¬ now ≤ d + 7 * 1440 →
          (validateReturnEligibility now pc order sku).reason =
            "Return window has expired")) := by
  refine ⟨?_, ⟨rfl, ?_⟩, ?_⟩
  · intro now pc order sku skuItem hfind hfalsy
    simp only [validateReturnEligibility, hfind, hfalsy]
    simp
  · intro r hr
    simp [productReturnableOf, hr]
  · intro now pc order sku skuItem d hfind hdel hd0
    have htruthy : jsTruthyNat
        ((skuItem.tracking_info.map (·.timestamps)).bind (·.deliveredAt)) = true := by
      rw [hdel]
      simp [jsTruthyNat, hd0]
    simp only [validateReturnEligibility, hfind, htruthy, hdel]
    constructor
    · simp [jsTruthyNat, hd0]
    · intro hexp
      simp [jsTruthyNat, hd0, hexp]

/-- Witness for C8: the order delivered at minute 1440, evaluated 10 days
later (minute 15840) with a returnable product, is ineligible with reason
`"Return window has expired"`. -/
theorem claim_C8_return_eligibility_witness :
    (validateReturnEligibility 15840 (some ⟨true, some true⟩)
      demoDeliveredOrder "A").isEligible = false ∧
    (validateReturnEligibility 15840 (some ⟨true, some true⟩)
      demoDeliveredOrder "A").reason = "Return window has expired" := by
  have h := claim_C8_return_eligibility.2.2 15840 (some ⟨true, some true⟩)
    demoDeliveredOrder "A" demoDeliveredSku 1440 (by decide) (by decide) (by decide)
  refine ⟨?_, h.2 (by decide)⟩
  rw [h.1]
  decide

/-- C9: creating a return request rejects — answering `sendError` and
writing nothing — when a return already exists for the same
`(orderId, sku)`, when the order is missing, when the caller does not own
the order, when the SKU is not in the order, or when the requested
quantity exceeds the ordered quantity; and every rejected create leaves
the store untouched. -/
theorem claim_C9_create_return_rejections :
    (∀ (st : Store) (pc : Option ProductResp) (now : ℕ) (newId : String)
        (req : CreateReq),
        ¬ (req.orderId = "" ∨ req.sku = "" ∨ req.returnReason = "" ∨
            req.customerId = "") →
        ((st.returns.find? (fun r => r.orderId == req.orderId && r.sku == req.sku)).isSome
            = true →
          createReturnRequest st pc now newId req =
            .error "Return request already exists for this order and SKU") ∧
        ((st.returns.find? (fun r => r.orderId == req.orderId && r.sku == req.sku)).isSome
            = false →
          (st.orders req.orderId = none →
            createReturnRequest st pc now newId req = .error "Order not found") ∧
          (∀ order, st.orders req.orderId = some order →
            (order.customerUserId ≠ some req.customerId →
              createReturnRequest st pc now newId req =
                .error "Unauthorized: Order does not belong to customer") ∧
            (order.customerUserId = some req.customerId →
              (order.skus.find? (fun s => s.sku == req.sku) = none →
                createReturnRequest st pc now newId req =
                  .error "SKU not found in order") ∧
              (∀ orderSku, order.skus.find? (fun s => s.sku == req.sku) = some orderSku →
                req.quantity > orderSku.quantity →
                createReturnRequest st pc now newId req =
                  .error "Return quantity cannot exceed ordered quantity"))))) ∧
    (∀ (st : Store) (pc : Option ProductResp) (now : ℕ) (newId : String)
        (req : CreateReq) (msg : String),
        createReturnRequest st pc now newId req = .error msg →
        commitCreate st (createReturnRequest st pc now newId req) = st) := by
  constructor
  · intro st pc now newId req hfields
    constructor
    · intro hdup
      simp only [createReturnRequest, if_neg hfields, hdup, if_true]
    · intro hnodup
      have hnodup' : ¬ (st.returns.find?
          (fun r => r.orderId == req.orderId && r.sku == req.sku)).isSome = true := by
        simp [hnodup]
      constructor
      · intro hord
        simp only [createReturnRequest, if_neg hfields, if_neg hnodup', hord]
      · intro order hord
        constructor
        · intro hown
          simp only [createReturnRequest, if_neg hfields, if_neg hnodup', hord,
            if_pos hown]
        · intro hown
          have hown' : ¬ order.customerUserId ≠ some req.customerId := by simp [hown]
          constructor
          · intro hsku
            simp only [createReturnRequest, if_neg hfields, if_neg hnodup', hord,
              if_neg hown', hsku]
          · intro orderSku hsku hqty
            simp only [createReturnRequest, if_neg hfields, if_neg hnodup', hord,
              if_neg hown', hsku, if_pos hqty]
  · intro st pc now newId req msg herr
    rw [herr]
    rfl

/-- Witness for C9: each rejection fires on a concrete input — duplicate
`(O2, A)` return, unknown order `O9`, wrong owner `C2`, unknown SKU `Z`,
quantity 5 over the ordered 2 — and the rejected create leaves the store
unchanged. -/
theorem claim_C9_create_return_rejections_witness :
    createReturnRequest demoStoreWithReturn none 0 "R9"
      { orderId := "O2", sku := "A", returnReason := "damaged", customerId := "C1" } =
      .error "Return request already exists for this order and SKU" ∧
    createReturnRequest demoStore none 0 "R9"
      { orderId := "O9", sku := "A", returnReason := "damaged", customerId := "C1" } =
      .error "Order not found" ∧
    createReturnRequest demoStore none 0 "R9"
      { orderId := "O2", sku := "A", returnReason := "damaged", customerId := "C2" } =
      .error "Unauthorized: Order does not belong to customer" ∧
    createReturnRequest demoStore none 0 "R9"
      { orderId := "O2", sku := "Z", returnReason := "damaged", customerId := "C1" } =
      .error "SKU not found in order" ∧
    createReturnRequest demoStore none 0 "R9"
      { orderId := "O2", sku := "A", quantity := 5, returnReason := "damaged",
        customerId := "C1" } =
      .error "Return quantity cannot exceed ordered quantity" ∧
    commitCreate demoStore (createReturnRequest demoStore none 0 "R9"
      { orderId := "O9", sku := "A", returnReason := "damaged", customerId := "C1" }) =
      demoStore := by
  have hdup := (claim_C9_create_return_rejections.1 demoStoreWithReturn none 0 "R9"
    { orderId := "O2", sku := "A", returnReason := "damaged", customerId := "C1" }
    (by decide)).1 (by decide)
  have hord := ((claim_C9_create_return_rejections.1 demoStore none 0 "R9"
    { orderId := "O9", sku := "A", returnReason := "damaged", customerId := "C1" }
    (by decide)).2 (by decide)).1 rfl
  have hown := (((claim_C9_create_return_rejections.1 demoStore none 0 "R9"
    { orderId := "O2", sku := "A", returnReason := "damaged", customerId := "C2" }
    (by decide)).2 (by decide)).2 demoDeliveredOrder rfl).1 (by decide)
  have hsku := ((((claim_C9_create_return_rejections.1 demoStore none 0 "R9"
    { orderId := "O2", sku := "Z", returnReason := "damaged", customerId := "C1" }
    (by decide)).2 (by decide)).2 demoDeliveredOrder rfl).2 rfl).1 (by decide)
  have hqty := ((((claim_C9_create_return_rejections.1 demoStore none 0 "R9"
    { orderId := "O2", sku := "A", quantity := 5, returnReason := "damaged",
      customerId := "C1" }
    (by decide)).2 (by decide)).2 demoDeliveredOrder rfl).2 rfl).2 demoDeliveredSku
    (by decide) (by decide)
  exact ⟨hdup, hord, hown, hsku, hqty,
    claim_C9_create_return_rejections.2 demoStore none 0 "R9"
      { orderId := "O9", sku := "A", returnReason := "damaged", customerId := "C1" }
      "Order not found" hord⟩

/-- C3: every lifecycle operation with a status precondition (schedule
pickup, complete pickup, start inspection, complete inspection, process
refund, complete), invoked when the current status differs from the
required one, answers the `sendError` message naming the required status
and leaves the stored ReturnRequest unchanged (for process refund also
writing no ledger entry); and after a successful process-refund the
request is `Refund_Processed`, so a second process-refund call is refused
with the same precondition error. -/
theorem claim_C3_precondition_safety :
    (∀ (pickup : PickupInfo) (now : ℕ) (r : ReturnRequest),
        r.returnStatus ≠ .Validated →
        schedulePickup pickup now r =
          .error "Return request must be validated before scheduling pickup" ∧
        commitOp r (schedulePickup pickup now r) = r) ∧
    (∀ (tn : String) (now : ℕ) (r : ReturnRequest),
        r.returnStatus ≠ .Pickup_Scheduled →
        completePickup tn now r =
          .error "Return request must be in Pickup_Scheduled status" ∧
        commitOp r (completePickup tn now r) = r) ∧
    (∀ (staffId : String) (now : ℕ) (r : ReturnRequest),
        r.returnStatus ≠ .Pickup_Completed →
        startInspection staffId now r =
          .error "Return request must be in Pickup_Completed status" ∧
        commitOp r (startInspection staffId now r) = r) ∧
    (∀ (body : InspectionReq) (now : ℕ) (r : ReturnRequest),
        r.returnStatus ≠ .Under_Inspection →
        completeInspection body now r =
          .error "Return request must be in Under_Inspection status" ∧
        commitOp r (completeInspection body now r) = r) ∧
    (∀ (env : RefundEnv) (adminId refundMethod : String) (refundNotes : Option String)
        (now : ℕ) (r : ReturnRequest),
        r.returnStatus ≠ .Approved →
        (processRefund env adminId refundMethod refundNotes now r).1 =
          .error "Return request must be approved before processing refund" ∧
        (processRefund env adminId refundMethod refundNotes now r).2 = [] ∧
        commitOp r (processRefund env adminId refundMethod refundNotes now r).1 = r) ∧
    (∀ (now : ℕ) (r : ReturnRequest),
        r.returnStatus ≠ .Refund_Processed →
        completeReturn now r =
          .error "Return request must have refund processed before completion" ∧
        commitOp r (completeReturn now r) = r) ∧
    (∀ (env : RefundEnv) (adminId refundMethod : String) (refundNotes : Option String)
        (now : ℕ) (r : ReturnRequest) (out : ReturnRequest) (recs : List RefundRecord),
        processRefund env adminId refundMethod refundNotes now r = (.ok out, recs) →
        out.returnStatus = .Refund_Processed ∧
        ∀ (env2 : RefundEnv) (a2 m2 : String) (n2 : Option String) (t2 : ℕ),
          (processRefund env2 a2 m2 n2 t2 out).1 =
            .error "Return request must be approved before processing refund") := by
  refine ⟨?_, ?_, ?_, ?_, ?_, ?_, ?_⟩
  · intro pickup now r h
    exact ⟨by simp [schedulePickup, h], by simp [commitOp, schedulePickup, h]⟩
  · intro tn now r h
    exact ⟨by simp [completePickup, h], by simp [commitOp, completePickup, h]⟩
  · intro staffId now r h
    exact ⟨by simp [startInspection, h], by simp [commitOp, startInspection, h]⟩
  · intro body now r h
    exact ⟨by simp [completeInspection, h], by simp [commitOp, completeInspection, h]⟩
  · intro env a m notes now r h
    refine ⟨by simp [processRefund, h], by simp [processRefund, h], ?_⟩
    simp [commitOp, processRefund, h]
  · intro now r h
    exact ⟨by simp [completeReturn, h], by simp [commitOp, completeReturn, h]⟩
  · intro env a m notes now r out recs hok
    by_cases hst : r.returnStatus = .Approved
    · have hne : ¬ r.returnStatus ≠ ReturnStatus.Approved := by simp [hst]
      simp only [processRefund, if_neg hne] at hok
      by_cases hsucc : (processRefundPayment env r m).result.success = true
      · have hns : ¬ ¬ (processRefundPayment env r m).result.success = true :=
          not_not_intro hsucc
        simp only [if_neg hns] at hok
        have hfst := congrArg Prod.fst hok
        simp only [Except.ok.injEq] at hfst
        have hout : out.returnStatus = ReturnStatus.Refund_Processed := by
          rw [← hfst]
        refine ⟨hout, ?_⟩
        intro env2 a2 m2 n2 t2
        simp [processRefund, hout]
      · simp only [if_pos hsucc] at hok
        have hfst := congrArg Prod.fst hok
        simp at hfst
    · simp [processRefund, hst] at hok

/-- Witness for C3: each precondition fires on a concrete wrong-status
request, and a second process-refund after a successful one is refused. -/
theorem claim_C3_precondition_safety_witness :
    schedulePickup {} 5 demoApprovedReturn =
      .error "Return request must be validated before scheduling pickup" ∧
    completePickup "TRK1" 5 demoApprovedReturn =
      .error "Return request must be in Pickup_Scheduled status" ∧
    startInspection "S1" 5 demoApprovedReturn =
      .error "Return request must be in Pickup_Completed status" ∧
    completeInspection { isApproved := true } 5 demoApprovedReturn =
      .error "Return request must be in Under_Inspection status" ∧
    (processRefund demoFallbackEnv "A1" "Original_Payment_Method" none 5
        { demoApprovedReturn with returnStatus := .Requested }).1 =
      .error "Return request must be approved before processing refund" ∧
    completeReturn 5 demoApprovedReturn =
      .error "Return request must have refund processed before completion" ∧
    (processRefund demoFallbackEnv "A2" "Original_Payment_Method" none 7
        (commitOp demoApprovedReturn
          (processRefund demoFallbackEnv "A1" "Original_Payment_Method" none 5
            demoApprovedReturn).1)).1 =
      .error "Return request must be approved before processing refund" := by
  refine ⟨?_, ?_, ?_, ?_, ?_, ?_, ?_⟩
  · exact (claim_C3_precondition_safety.1 {} 5 demoApprovedReturn (by decide)).1
  · exact (claim_C3_precondition_safety.2.1 "TRK1" 5 demoApprovedReturn (by decide)).1
  · exact (claim_C3_precondition_safety.2.2.1 "S1" 5 demoApprovedReturn (by decide)).1
  · exact (claim_C3_precondition_safety.2.2.2.1 { isApproved := true } 5
      demoApprovedReturn (by decide)).1
  · exact (claim_C3_precondition_safety.2.2.2.2.1 demoFallbackEnv "A1"
      "Original_Payment_Method" none 5
      { demoApprovedReturn with returnStatus := .Requested } (by decide)).1
  · exact (claim_C3_precondition_safety.2.2.2.2.2.1 5 demoApprovedReturn (by decide)).1
  · have hsucc : (processRefund demoFallbackEnv "A1" "Original_Payment_Method" none 5
        demoApprovedReturn).1.isOk = true := by with_unfolding_all decide
    cases hok : processRefund demoFallbackEnv "A1" "Original_Payment_Method" none 5
        demoApprovedReturn with
    | mk fst snd =>
      cases hf : fst with
      | error e =>
        rw [hok, hf] at hsucc
        simp [Except.isOk, Except.toBool] at hsucc
      | ok out =>
        have hok2 : processRefund demoFallbackEnv "A1" "Original_Payment_Method" none 5
            demoApprovedReturn = (.ok out, snd) := by rw [hok, hf]
        have h := (claim_C3_precondition_safety.2.2.2.2.2.2 demoFallbackEnv "A1"
          "Original_Payment_Method" none 5 demoApprovedReturn out snd hok2).2
          demoFallbackEnv "A2" "Original_Payment_Method" none 7
        simpa [commitOp] using h

lemma sourceRefundPath_cases (env : RefundEnv) (order : Order) (payment : PaymentRec)
    (rr : ReturnRequest) :
    (sourceRefundPath env order payment rr).result.success = true ∨
    ((sourceRefundPath env order payment rr).result.success = false ∧
      (sourceRefundPath env order payment rr).ledger = [] ∧
      (sourceRefundPath env order payment rr).request = rr) := by
  unfold sourceRefundPath
  split
  · right
    exact ⟨rfl, rfl, rfl⟩
  · split
    · right
      exact ⟨rfl, rfl, rfl⟩
    · dsimp only
      split
      · right
        exact ⟨rfl, rfl, rfl⟩
      · split
        · right
          exact ⟨rfl, rfl, rfl⟩
        · split
          · right
            exact ⟨rfl, rfl, rfl⟩
          · left
            rfl

lemma bankPayoutAttempt_some (env : RefundEnv) (order : Order) (rr : ReturnRequest)
    (res : RefundResult) (entry : RefundRecord) (rr' : ReturnRequest)
    (h : (bankPayoutAttempt env order rr).1 = some (res, entry, rr')) :
    res.success = true ∧ rr'.refund.refundAmount = rr.refund.refundAmount := by
  unfold bankPayoutAttempt at h
  split at h
  · simp at h
  · split at h
    · simp at h
    · split at h
      · simp at h
      · simp only [Option.some_inj, Prod.mk.injEq] at h
        obtain ⟨h1, h2, h3⟩ := h
        subst h1
        subst h3
        exact ⟨rfl, rfl⟩

lemma bankPayoutAttempt_none_iff (env : RefundEnv) (order : Order) (rr : ReturnRequest) :
    (bankPayoutAttempt env order rr).1 = none ↔
      (∃ e, env.contact = .error e) ∨ (∃ e, env.fund = .error e) ∨
      (∃ e, env.payout = .error e) := by
  unfold bankPayoutAttempt
  cases hc : env.contact with
  | error e => simp [hc]
  | ok c =>
    cases hf : env.fund with
    | error e => simp [hc, hf]
    | ok f =>
      cases hp : env.payout with
      | error e => simp [hc, hf, hp]
      | ok p => simp [hc, hf, hp]

lemma bankPayoutAttempt_amounts (env : RefundEnv) (order : Order) (rr : ReturnRequest) :
    ∀ a ∈ (bankPayoutAttempt env order rr).2,
      a = jsRound (rr.refund.refundAmount * 100) := by
  unfold bankPayoutAttempt
  split
  · simp
  · split
    · simp
    · split <;> simp

lemma sourceRefundPath_amounts (env : RefundEnv) (order : Order) (payment : PaymentRec)
    (rr : ReturnRequest) :
    ∀ a ∈ (sourceRefundPath env order payment rr).providerAmounts,
      a = jsRound (rr.refund.refundAmount * 100) := by
  unfold sourceRefundPath
  split
  · simp [failedRun]
  · split
    · simp [failedRun]
    · dsimp only
      split
      · simp [failedRun]
      · split
        · simp [failedRun]
        · split <;> simp [failedRun]

lemma sourceRefundPath_request_amount (env : RefundEnv) (order : Order)
    (payment : PaymentRec) (rr : ReturnRequest) :
    (sourceRefundPath env order payment rr).request.refund.refundAmount =
      rr.refund.refundAmount := by
  unfold sourceRefundPath
  split
  · rfl
  · split
    · rfl
    · dsimp only
      split
      · rfl
      · split
        · rfl
        · split <;> rfl

lemma processRefundPayment_cases (env : RefundEnv) (rr : ReturnRequest) (m : String) :
    (processRefundPayment env rr m).result.success = true ∨
    ((processRefundPayment env rr m).result.success = false ∧
      (processRefundPayment env rr m).ledger = [] ∧
      (processRefundPayment env rr m).request = rr) := by
  unfold processRefundPayment
  cases ho : env.order with
  | none => right; exact ⟨rfl, rfl, rfl⟩
  | some order =>
    cases hpm : env.payment with
    | none => right; exact ⟨rfl, rfl, rfl⟩
    | some payment =>
      dsimp only
      split
      · cases hb : bankPayoutAttempt env order rr with
        | mk fst amts =>
          cases fst with
          | some trip =>
            obtain ⟨res, entry, rr'⟩ := trip
            left
            exact (bankPayoutAttempt_some env order rr res entry rr' (by rw [hb])).1
          | none =>
            rcases sourceRefundPath_cases env order payment rr with hs | ⟨h1, h2, h3⟩
            · left
              exact hs
            · right
              exact ⟨h1, h2, h3⟩
      · exact sourceRefundPath_cases env order payment rr

lemma processRefundPayment_amounts (env : RefundEnv) (rr : ReturnRequest) (m : String) :
    ∀ a ∈ (processRefundPayment env rr m).providerAmounts,
      a = jsRound (rr.refund.refundAmount * 100) := by
  unfold processRefundPayment
  cases ho : env.order with
  | none => simp
  | some order =>
    cases hpm : env.payment with
    | none => simp
    | some payment =>
      dsimp only
      split
      · cases hb : bankPayoutAttempt env order rr with
        | mk fst amts =>
          have hamts : ∀ a ∈ amts, a = jsRound (rr.refund.refundAmount * 100) := by
            have := bankPayoutAttempt_amounts env order rr
            rw [hb] at this
            exact this
          cases fst with
          | some trip =>
            obtain ⟨res, entry, rr'⟩ := trip
            exact hamts
          | none =>
            intro a ha
            rw [List.mem_append] at ha
            rcases ha with ha | ha
            · exact hamts a ha
            · exact sourceRefundPath_amounts env order payment rr a ha
      · exact sourceRefundPath_amounts env order payment rr

lemma processRefundPayment_request_amount (env : RefundEnv) (rr : ReturnRequest)
    (m : String) :
    (processRefundPayment env rr m).request.refund.refundAmount =
      rr.refund.refundAmount := by
  unfold processRefundPayment
  cases ho : env.order with
  | none => rfl
  | some order =>
    cases hpm : env.payment with
    | none => rfl
    | some payment =>
      dsimp only
      split
      · cases hb : bankPayoutAttempt env order rr with
        | mk fst amts =>
          cases fst with
          | some trip =>
            obtain ⟨res, entry, rr'⟩ := trip
            exact (bankPayoutAttempt_some env order rr res entry rr' (by rw [hb])).2
          | none =>
            exact sourceRefundPath_request_amount env order payment rr
      · exact sourceRefundPath_request_amount env order payment rr

lemma sourceRefundPath_success (env : RefundEnv) (order : Order) (payment : PaymentRec)
    (rr : ReturnRequest) (pd : PaymentDetailsResp) (resp : RefundResp)
    (hpt : jsTruthyStr payment.payment_id = true)
    (hpd : env.paymentDetails = .ok pd)
    (hbal : ¬ jsRound (rr.refund.refundAmount * 100) > pd.amount - pd.amount_refunded)
    (hrc : env.refundCall = .ok resp)
    (hst : (resp.status == "failed") = false) :
    sourceRefundPath env order payment rr =
      { result :=
          { success := true, transactionId := some resp.id,
            refundType := some "Source_Refund",
            message := "Refund processed successfully to source account" },
        ledger :=
          [{ order_id := order._id, return_id := rr._id,
             razorpay_refund_id := some resp.id, amount := rr.refund.refundAmount,
             status := resp.status, refund_type := "Refund-Online" }],
        request := { rr with refund := { rr.refund with refund_id := some resp.id } },
        providerAmounts := [jsRound (rr.refund.refundAmount * 100)] } := by
  unfold sourceRefundPath
  rw [if_neg (by simp [hpt]), hpd]
  dsimp only
  rw [if_neg hbal, hrc]
  dsimp only
  rw [if_neg (by simp [hst])]

/-- C4: the refund processor selects the bank-payout path exactly when the
customer has complete bank details AND (the requested method is
`Bank_Account` or `Wallet` OR the original payment lacks a provider payment
id); with the selector false it runs exactly the source-refund path; the
payout attempt falls through to the source path precisely when the
contact, fund-account or payout call fails; and such a fallback run whose
source refund succeeds produces exactly one ledger entry — the
source-strategy entry (`razorpay_refund_id` set, stored
`refund_type = "Refund-Online"`, result `refundType = "Source_Refund"`) —
never two. -/
theorem claim_C4_refund_strategy_and_fallback :
    (∀ (user : Option UserData) (payment : PaymentRec) (m : String),
        useBankPayout user payment m = true ↔
          (hasBankAccount user = true ∧
            (m = "Bank_Account" ∨ m = "Wallet" ∨ jsTruthyStr payment.payment_id = false))) ∧
    (∀ (env : RefundEnv) (order : Order) (payment : PaymentRec) (rr : ReturnRequest)
        (m : String),
        env.order = some order → env.payment = some payment →
        useBankPayout env.user payment m = false →
        processRefundPayment env rr m = sourceRefundPath env order payment rr) ∧
    (∀ (env : RefundEnv) (order : Order) (rr : ReturnRequest),
        (bankPayoutAttempt env order rr).1 = none ↔
          (∃ e, env.contact = .error e) ∨ (∃ e, env.fund = .error e) ∨
          (∃ e, env.payout = .error e)) ∧
    (∀ (env : RefundEnv) (order : Order) (payment : PaymentRec) (rr : ReturnRequest)
        (m : String) (pd : PaymentDetailsResp) (resp : RefundResp),
        env.order = some order → env.payment = some payment →
        useBankPayout env.user payment m = true →
        (bankPayoutAttempt env order rr).1 = none →
        jsTruthyStr payment.payment_id = true →
        env.paymentDetails = .ok pd →
        ¬ jsRound (rr.refund.refundAmount * 100) > pd.amount - pd.amount_refunded →
        env.refundCall = .ok resp → (resp.status == "failed") = false →
        (processRefundPayment env rr m).result.success = true ∧
        (processRefundPayment env rr m).result.refundType = some "Source_Refund" ∧
        (processRefundPayment env rr m).ledger =
          [{ order_id := order._id, return_id := rr._id,
             razorpay_refund_id := some resp.id, amount := rr.refund.refundAmount,
             status := resp.status, refund_type := "Refund-Online" }]) := by
  refine ⟨?_, ?_, bankPayoutAttempt_none_iff, ?_⟩
  · intro user payment m
    simp only [useBankPayout, Bool.and_eq_true, Bool.or_eq_true, beq_iff_eq,
      Bool.not_eq_true', or_assoc]
  · intro env order payment rr m ho hpm huse
    unfold processRefundPayment
    rw [ho, hpm]
    dsimp only
    rw [if_neg (by simp [huse])]
  · intro env order payment rr m pd resp ho hpm huse hatt hpt hpd hbal hrc hst
    have hrun : processRefundPayment env rr m =
        { result := (sourceRefundPath env order payment rr).result,
          ledger := (sourceRefundPath env order payment rr).ledger,
          request := (sourceRefundPath env order payment rr).request,
          providerAmounts := (bankPayoutAttempt env order rr).2 ++
            (sourceRefundPath env order payment rr).providerAmounts } := by
      unfold processRefundPayment
      rw [ho, hpm]
      dsimp only
      rw [if_pos huse]
      cases hb : bankPayoutAttempt env order rr with
      | mk fst amts =>
        rw [hb] at hatt
        dsimp only at hatt
        subst hatt
        rfl
    rw [hrun, sourceRefundPath_success env order payment rr pd resp hpt hpd hbal hrc hst]
    exact ⟨rfl, rfl, rfl⟩

/-- C5: on the source-refund path the processor fails with the
insufficient-balance error when `Math.round(refundAmount*100)` exceeds the
captured amount minus the already-refunded amount, and treats a provider
refund status of `"failed"` as an error; whenever the run fails it returns
`{success := false, message}` having written no ledger entry and left the
request untouched, and the orchestrator then refuses the transition,
leaving the ReturnRequest in status `Approved`. -/
theorem claim_C5_source_refund_failure_handling :
    (∀ (env : RefundEnv) (order : Order) (payment : PaymentRec) (rr : ReturnRequest)
        (pd : PaymentDetailsResp),
        jsTruthyStr payment.payment_id = true →
        env.paymentDetails = .ok pd →
        jsRound (rr.refund.refundAmount * 100) > pd.amount - pd.amount_refunded →
        sourceRefundPath env order payment rr = failedRun rr insufficientBalanceMsg []) ∧
    (∀ (env : RefundEnv) (order : Order) (payment : PaymentRec) (rr : ReturnRequest)
        (pd : PaymentDetailsResp) (resp : RefundResp),
        jsTruthyStr payment.payment_id = true →
        env.paymentDetails = .ok pd →
        ¬ jsRound (rr.refund.refundAmount * 100) > pd.amount - pd.amount_refunded →
        env.refundCall = .ok resp → resp.status = "failed" →
        sourceRefundPath env order payment rr =
          failedRun rr ("Refund failed: " ++ resp.error_description.getD "Unknown error")
            [jsRound (rr.refund.refundAmount * 100)]) ∧
    (∀ (env : RefundEnv) (rr : ReturnRequest) (m : String),
        (processRefundPayment env rr m).result.success = false →
        (processRefundPayment env rr m).ledger = [] ∧
        (processRefundPayment env rr m).request = rr) ∧
    (∀ (env : RefundEnv) (adminId m : String) (notes : Option String) (now : ℕ)
        (r : ReturnRequest),
        r.returnStatus = .Approved →
        (processRefundPayment env r m).result.success = false →
        (processRefund env adminId m notes now r).1 =
          .error ("Refund processing failed: " ++
            (processRefundPayment env r m).result.message) ∧
        (processRefund env adminId m notes now r).2 = [] ∧
        commitOp r (processRefund env adminId m notes now r).1 = r ∧
        (commitOp r (processRefund env adminId m notes now r).1).returnStatus =
          .Approved) := by
  refine ⟨?_, ?_, ?_, ?_⟩
  · intro env order payment rr pd hpt hpd hbal
    unfold sourceRefundPath
    rw [if_neg (by simp [hpt]), hpd]
    dsimp only
    rw [if_pos hbal]
  · intro env order payment rr pd resp hpt hpd hbal hrc hst
    unfold sourceRefundPath
    rw [if_neg (by simp [hpt]), hpd]
    dsimp only
    rw [if_neg hbal, hrc]
    dsimp only
    rw [if_pos (by simp [hst])]
  · intro env rr m h
    rcases processRefundPayment_cases env rr m with hs | ⟨_, h2, h3⟩
    · rw [hs] at h
      exact absurd h (by simp)
    · exact ⟨h2, h3⟩
  · intro env adminId m notes now r hst hfail
    have hne : ¬ r.returnStatus ≠ ReturnStatus.Approved := by simp [hst]
    have hns : ¬ (processRefundPayment env r m).result.success = true := by
      simp [hfail]
    rcases processRefundPayment_cases env r m with hs | ⟨_, h2, _⟩
    · exact absurd hs hns
    · refine ⟨?_, ?_, ?_, ?_⟩
      · simp only [processRefund, if_neg hne, if_pos hns]
      · simp only [processRefund, if_neg hne, if_pos hns]
        exact h2
      · simp only [commitOp, processRefund, if_neg hne, if_pos hns]
      · simp only [commitOp, processRefund, if_neg hne, if_pos hns]
        exact hst

/-- C10: `refund.refundAmount` is fixed at creation to the order SKU's
`selling_price` times the returned quantity; no subsequent lifecycle
operation (validate, schedule pickup, complete pickup, start inspection,
complete inspection, process refund, complete, add note) changes it; and
every amount either refund path sends to the provider is exactly
`Math.round(refundAmount × 100)` minor currency units. -/
theorem claim_C10_refund_amount_invariant :
    (∀ (st : Store) (pc : Option ProductResp) (now : ℕ) (newId : String)
        (req : CreateReq) (rr : ReturnRequest) (st' : Store) (order : Order)
        (orderSku : OrderSku),
        st.orders req.orderId = some order →
        order.skus.find? (fun s => s.sku == req.sku) = some orderSku →
        createReturnRequest st pc now newId req = .ok (rr, st') →
        rr.refund.refundAmount = orderSku.selling_price * req.quantity) ∧
    (∀ (ol : Option Order) (pc : Option ProductResp) (now : ℕ) (r r' : ReturnRequest),
        validateReturnRequest ol pc now r = .ok r' →
        r'.refund.refundAmount = r.refund.refundAmount) ∧
    (∀ (pickup : PickupInfo) (now : ℕ) (r r' : ReturnRequest),
        schedulePickup pickup now r = .ok r' →
        r'.refund.refundAmount = r.refund.refundAmount) ∧
    (∀ (tn : String) (now : ℕ) (r r' : ReturnRequest),
        completePickup tn now r = .ok r' →
        r'.refund.refundAmount = r.refund.refundAmount) ∧
    (∀ (staffId : String) (now : ℕ) (r r' : ReturnRequest),
        startInspection staffId now r = .ok r' →
        r'.refund.refundAmount = r.refund.refundAmount) ∧
    (∀ (body : InspectionReq) (now : ℕ) (r r' : ReturnRequest),
        completeInspection body now r = .ok r' →
        r'.refund.refundAmount = r.refund.refundAmount) ∧
    (∀ (env : RefundEnv) (adminId m : String) (notes : Option String) (now : ℕ)
        (r r' : ReturnRequest),
        (processRefund env adminId m notes now r).1 = .ok r' →
        r'.refund.refundAmount = r.refund.refundAmount) ∧
    (∀ (now : ℕ) (r r' : ReturnRequest),
        completeReturn now r = .ok r' →
        r'.refund.refundAmount = r.refund.refundAmount) ∧
    (∀ (note addedBy : String) (r r' : ReturnRequest),
        addNote note addedBy r = .ok r' →
        r'.refund.refundAmount = r.refund.refundAmount) ∧
    (∀ (env : RefundEnv) (rr : ReturnRequest) (m : String),
        ∀ a ∈ (processRefundPayment env rr m).providerAmounts,
          a = jsRound (rr.refund.refundAmount * 100)) := by
  refine ⟨?_, ?_, ?_, ?_, ?_, ?_, ?_, ?_, ?_, processRefundPayment_amounts⟩
  · intro st pc now newId req rr st' order orderSku hord hsku hok
    unfold createReturnRequest at hok
    split at hok
    · exact absurd hok (by simp)
    · split at hok
      · exact absurd hok (by simp)
      · rw [hord] at hok
        dsimp only at hok
        split at hok
        · exact absurd hok (by simp)
        · rw [hsku] at hok
          dsimp only at hok
          split at hok
          · exact absurd hok (by simp)
          · simp only [Except.ok.injEq, Prod.mk.injEq] at hok
            obtain ⟨h1, _⟩ := hok
            rw [← h1]
  · intro ol pc now r r' hok
    cases ol with
    | none => exact absurd hok (by simp [validateReturnRequest])
    | some order =>
      simp only [validateReturnRequest, Except.ok.injEq] at hok
      rw [← hok]
  · intro pickup now r r' hok
    unfold schedulePickup at hok
    split at hok
    · exact absurd hok (by simp)
    · simp only [Except.ok.injEq] at hok
      rw [← hok]
  · intro tn now r r' hok
    unfold completePickup at hok
    split at hok
    · exact absurd hok (by simp)
    · simp only [Except.ok.injEq] at hok
      rw [← hok]
  · intro staffId now r r' hok
    unfold startInspection at hok
    split at hok
    · exact absurd hok (by simp)
    · simp only [Except.ok.injEq] at hok
      rw [← hok]
  · intro body now r r' hok
    unfold completeInspection at hok
    split at hok
    · exact absurd hok (by simp)
    · simp only [Except.ok.injEq] at hok
      rw [← hok]
  · intro env adminId m notes now r r' hok
    unfold processRefund at hok
    split at hok
    · exact absurd hok (by simp)
    · dsimp only at hok
      split at hok
      · exact absurd hok (by simp)
      · simp only [Except.ok.injEq] at hok
        rw [← hok]
        exact processRefundPayment_request_amount env r m
  · intro now r r' hok
    unfold completeReturn at hok
    split at hok
    · exact absurd hok (by simp)
    · simp only [Except.ok.injEq] at hok
      rw [← hok]
  · intro note addedBy r r' hok
    simp only [addNote, Except.ok.injEq] at hok
    rw [← hok]

/-- Witness for C4: with complete bank details and method `Bank_Account`
the selector is true; with no bank details the run is exactly the source
path; the fixture payout failure makes the attempt fall through; and the
fallback run succeeds with exactly the one source-strategy ledger
entry. -/
theorem claim_C4_refund_strategy_and_fallback_witness :
    useBankPayout demoFallbackEnv.user { payment_id := some "pay_1" } "Bank_Account" =
      true ∧
    processRefundPayment demoInsufficientEnv demoApprovedReturn
        "Original_Payment_Method" =
      sourceRefundPath demoInsufficientEnv demoDeliveredOrder
        { payment_id := some "pay_1" } demoApprovedReturn ∧
    (bankPayoutAttempt demoFallbackEnv demoDeliveredOrder demoApprovedReturn).1 =
      none ∧
    (processRefundPayment demoFallbackEnv demoApprovedReturn
        "Bank_Account").result.success = true ∧
    (processRefundPayment demoFallbackEnv demoApprovedReturn
        "Bank_Account").result.refundType = some "Source_Refund" ∧
    (processRefundPayment demoFallbackEnv demoApprovedReturn "Bank_Account").ledger =
      [{ order_id := "O2", return_id := "R1", razorpay_refund_id := some "rfnd_1",
         amount := 200, status := "processed", refund_type := "Refund-Online" }] := by
  have hatt : (bankPayoutAttempt demoFallbackEnv demoDeliveredOrder
      demoApprovedReturn).1 = none :=
    (claim_C4_refund_strategy_and_fallback.2.2.1 demoFallbackEnv demoDeliveredOrder
      demoApprovedReturn).mpr (.inr (.inr ⟨"payout creation failed", rfl⟩))
  have hfb := claim_C4_refund_strategy_and_fallback.2.2.2 demoFallbackEnv
    demoDeliveredOrder { payment_id := some "pay_1" } demoApprovedReturn
    "Bank_Account" { amount := 50000, amount_refunded := 0 }
    { id := "rfnd_1", status := "processed" } rfl rfl (by decide) hatt (by decide) rfl
    (by with_unfolding_all decide) rfl (by decide)
  refine ⟨?_, ?_, hatt, hfb.1, hfb.2.1, hfb.2.2⟩
  · exact (claim_C4_refund_strategy_and_fallback.1 demoFallbackEnv.user
      { payment_id := some "pay_1" } "Bank_Account").mpr ⟨by decide, .inl rfl⟩
  · exact claim_C4_refund_strategy_and_fallback.2.1 demoInsufficientEnv
      demoDeliveredOrder { payment_id := some "pay_1" } demoApprovedReturn
      "Original_Payment_Method" rfl rfl (by decide)

/-- Witness for C5: the fixture whose captured balance is 10000 paise
rejects the 20000-paise request with the insufficient-balance failure and
writes nothing; the orchestrator refuses the transition and the request
stays `Approved`; and a provider status `"failed"` is treated as an
error. -/
theorem claim_C5_source_refund_failure_handling_witness :
    sourceRefundPath demoInsufficientEnv demoDeliveredOrder
      { payment_id := some "pay_1" } demoApprovedReturn =
      failedRun demoApprovedReturn insufficientBalanceMsg [] ∧
    (processRefundPayment demoInsufficientEnv demoApprovedReturn
        "Original_Payment_Method").ledger = [] ∧
    (processRefundPayment demoInsufficientEnv demoApprovedReturn
        "Original_Payment_Method").request = demoApprovedReturn ∧
    (processRefund demoInsufficientEnv "A1" "Original_Payment_Method" none 5
        demoApprovedReturn).2 = [] ∧
    commitOp demoApprovedReturn
      (processRefund demoInsufficientEnv "A1" "Original_Payment_Method" none 5
        demoApprovedReturn).1 = demoApprovedReturn ∧
    (commitOp demoApprovedReturn
      (processRefund demoInsufficientEnv "A1" "Original_Payment_Method" none 5
        demoApprovedReturn).1).returnStatus = .Approved ∧
    sourceRefundPath demoFailedRefundEnv demoDeliveredOrder
      { payment_id := some "pay_1" } demoApprovedReturn =
      failedRun demoApprovedReturn ("Refund failed: " ++ "Unknown error")
        [jsRound (demoApprovedReturn.refund.refundAmount * 100)] := by
  have hins := claim_C5_source_refund_failure_handling.1 demoInsufficientEnv
    demoDeliveredOrder { payment_id := some "pay_1" } demoApprovedReturn
    { amount := 10000, amount_refunded := 0 } (by decide) rfl
    (by with_unfolding_all decide)
  have hnw := claim_C5_source_refund_failure_handling.2.2.1 demoInsufficientEnv
    demoApprovedReturn "Original_Payment_Method" (by with_unfolding_all decide)
  have horch := claim_C5_source_refund_failure_handling.2.2.2 demoInsufficientEnv
    "A1" "Original_Payment_Method" none 5 demoApprovedReturn rfl
    (by with_unfolding_all decide)
  have hfailst := claim_C5_source_refund_failure_handling.2.1 demoFailedRefundEnv
    demoDeliveredOrder { payment_id := some "pay_1" } demoApprovedReturn
    { amount := 50000, amount_refunded := 0 } { id := "rfnd_3", status := "failed" }
    (by decide) rfl (by with_unfolding_all decide) rfl rfl
  exact ⟨hins, hnw.1, hnw.2, horch.2.1, horch.2.2.1, horch.2.2.2, hfailst⟩

/-- Witness for C10: a successful create over the fixture order fixes the
refund amount at `selling_price × quantity = 200`; a lifecycle transition
(schedule pickup) preserves it; and every paise amount the fallback run
sends to the provider equals `Math.round(200 × 100)`. -/
theorem claim_C10_refund_amount_invariant_witness :
    (createReturnRequest demoStore (some ⟨true, some true⟩) 2000 "R2"
        { orderId := "O2", sku := "A", quantity := 2, returnReason := "damaged",
          customerId := "C1" }).toOption.map (fun p => p.1.refund.refundAmount) =
      some 200 ∧
    (schedulePickup {} 5 demoValidatedReturn).toOption.map
      (fun r => r.refund.refundAmount) = some 200 ∧
    ((processRefundPayment demoFallbackEnv demoApprovedReturn
        "Bank_Account").providerAmounts.all
      (fun a => a == jsRound (demoApprovedReturn.refund.refundAmount * 100))) = true := by
  refine ⟨?_, ?_, ?_⟩
  · have hsucc : (createReturnRequest demoStore (some ⟨true, some true⟩) 2000 "R2"
        { orderId := "O2", sku := "A", quantity := 2, returnReason := "damaged",
          customerId := "C1" }).isOk = true := by with_unfolding_all decide
    cases hok : createReturnRequest demoStore (some ⟨true, some true⟩) 2000 "R2"
        { orderId := "O2", sku := "A", quantity := 2, returnReason := "damaged",
          customerId := "C1" } with
    | error e =>
      rw [hok] at hsucc
      simp [Except.isOk, Except.toBool] at hsucc
    | ok p =>
      obtain ⟨rr, st'⟩ := p
      have h := claim_C10_refund_amount_invariant.1 demoStore (some ⟨true, some true⟩)
        2000 "R2"
        { orderId := "O2", sku := "A", quantity := 2, returnReason := "damaged",
          customerId := "C1" } rr st' demoDeliveredOrder demoDeliveredSku rfl
        (by decide) hok
      simp only [Except.toOption, Option.map_some']
      rw [h]
      norm_num [demoDeliveredSku]
  · cases hok : schedulePickup {} 5 demoValidatedReturn with
    | error e =>
      have hsucc : (schedulePickup {} 5 demoValidatedReturn).isOk = true := by decide
      rw [hok] at hsucc
      simp [Except.isOk, Except.toBool] at hsucc
    | ok r' =>
      have h := claim_C10_refund_amount_invariant.2.2.1 {} 5 demoValidatedReturn r' hok
      simp only [Except.toOption, Option.map_some']
      rw [h]
      rfl
  · refine List.all_eq_true.mpr ?_
    intro a ha
    exact beq_iff_eq.mpr
      (claim_C10_refund_amount_invariant.2.2.2.2.2.2.2.2.2 demoFallbackEnv
        demoApprovedReturn "Bank_Account" a ha)

lemma sweepPackedFilter_eq (s : OrderSku) :
    sweepPackedFilter s = isPackedWithTimestamp s := by
  unfold sweepPackedFilter isPackedWithTimestamp
  cases hti : s.tracking_info with
  | none => rfl
  | some ti =>
    dsimp only
    by_cases h : ti.status = "Packed"
    · rw [h]
      simp
    · have hb : (ti.status == "Packed") = false := beq_eq_false_iff_ne.mpr h
      rw [hb]
      simp

lemma packing_not_all_violated (slaEnv : String → Option DealerSLARec) (now : ℕ)
    (order : Order) (s : OrderSku)
    (hs : s ∈ order.skus.filter isPackedWithTimestamp)
    (hnv : checkSKUSLAViolation slaEnv now order s.sku (skuPackedAt now none s) = none) :
    (checkSLAViolationOnPacking slaEnv now order none none).hasViolation = false ∧
    (checkSLAViolationOnPacking slaEnv now order none none).allSkusViolated = false := by
  have hne : order.skus.isEmpty = false := by
    cases horder : order.skus with
    | nil => rw [horder] at hs; simp at hs
    | cons a l => rfl
  have hpne : (order.skus.filter isPackedWithTimestamp).isEmpty = false := by
    cases hp : order.skus.filter isPackedWithTimestamp with
    | nil => rw [hp] at hs; simp at hs
    | cons a l => rfl
  have hall : (order.skus.filter isPackedWithTimestamp).all
      (fun s' => (checkSKUSLAViolation slaEnv now order s'.sku
        (skuPackedAt now none s')).isSome) = false := by
    rw [List.all_eq_false]
    exact ⟨s, hs, by simp [hnv]⟩
  simp only [checkSLAViolationOnPacking, hne, hpne, hall, Bool.false_eq_true,
    if_false, Bool.and_false, Bool.false_and, Bool.and_self]
  exact ⟨trivial, trivial⟩

lemma sweep_orderSlaInfo_unchanged (slaEnv : String → Option DealerSLARec) (now : ℕ)
    (order : Order) (st : SweepState)
    (hnv : (checkSLAViolationOnPacking slaEnv now order none none).hasViolation = false) :
    (checkOrderSLAViolation slaEnv now order st).2.orderSlaInfo = st.orderSlaInfo := by
  by_cases h1 : order.skus.isEmpty = true
  · simp [checkOrderSLAViolation, h1]
  · by_cases h2 : (order.skus.filter sweepPackedFilter).isEmpty = true
    · simp [checkOrderSLAViolation, h1, h2]
    · simp only [checkOrderSLAViolation, h1, h2, hnv, Bool.false_eq_true, if_false,
        Bool.false_and]
      split <;> rfl

/-- C2: whenever some packed SKU of the order is not individually
SLA-violated, the aggregate order-level outcome is false
(`hasViolation = false`, `allSkusViolated = false`) and the sweep leaves
the order's SLA summary unpatched — while each violated SKU is still
recorded; in the claim's example (SKU `A` 30 minutes late, SKU `B` on
time, clean ledger) the sweep writes exactly the one unresolved SKU-level
record for `A`, no order-level violation results, and a second sweep run
changes nothing. -/
theorem claim_C2_partial_violation :
    (∀ (slaEnv : String → Option DealerSLARec) (now : ℕ) (order : Order)
        (st : SweepState) (s : OrderSku),
        s ∈ order.skus.filter isPackedWithTimestamp →
        checkSKUSLAViolation slaEnv now order s.sku (skuPackedAt now none s) = none →
        (checkSLAViolationOnPacking slaEnv now order none none).hasViolation = false ∧
        (checkSLAViolationOnPacking slaEnv now order none none).allSkusViolated = false ∧
        (checkOrderSLAViolation slaEnv now order st).2.orderSlaInfo = st.orderSlaInfo) ∧
    ((checkOrderSLAViolation demoSlaEnv 999999 demoOrderPartial ⟨[], none⟩).2.ledger =
        [demoViolationRecA] ∧
      (checkOrderSLAViolation demoSlaEnv 999999 demoOrderPartial
          ⟨[], none⟩).2.orderSlaInfo = none ∧
      checkOrderSLAViolation demoSlaEnv 999999 demoOrderPartial
          (checkOrderSLAViolation demoSlaEnv 999999 demoOrderPartial ⟨[], none⟩).2 =
        (true, (checkOrderSLAViolation demoSlaEnv 999999 demoOrderPartial
          ⟨[], none⟩).2)) := by
  constructor
  · intro slaEnv now order st s hs hnv
    obtain ⟨h1, h2⟩ := packing_not_all_violated slaEnv now order s hs hnv
    exact ⟨h1, h2, sweep_orderSlaInfo_unchanged slaEnv now order st h1⟩
  · exact ⟨by decide, by decide, by decide⟩

/-- Witness for C2: the fixture order with `A` late and `B` packed five
minutes early has aggregate outcome false and an unpatched SLA summary. -/
theorem claim_C2_partial_violation_witness :
    (checkSLAViolationOnPacking demoSlaEnv 999999 demoOrderPartial none
      none).hasViolation = false ∧
    (checkSLAViolationOnPacking demoSlaEnv 999999 demoOrderPartial none
      none).allSkusViolated = false ∧
    (checkOrderSLAViolation demoSlaEnv 999999 demoOrderPartial
      ⟨[], none⟩).2.orderSlaInfo = none :=
  claim_C2_partial_violation.1 demoSlaEnv 999999 demoOrderPartial ⟨[], none⟩
    demoSkuBOnTime (by decide) (by decide)

/-- C1, at the claim's own input (both SKUs of the fixture order late,
clean ledger): the order-level outcome is true, one unresolved SKU-level
record per violated SKU is written and a second sweep run creates no
duplicates — but the ledger holds ZERO records with `sku = null`, not the
one order-level record the claim requires: `checkOrderSLAViolation` only
patches `order.slaInfo` and never inserts the `sku = null` `SLAViolation`
document that its own idempotency guard
(`SLAViolation.findOne({order_id, sku: null, resolved: false})`)
queries, so that guard can never fire. -/
theorem claim_C1_order_level_ledger_bug :
    (checkOrderSLAViolation demoSlaEnv 999999 demoOrderAllLate ⟨[], none⟩).1 = true ∧
    (checkOrderSLAViolation demoSlaEnv 999999 demoOrderAllLate ⟨[], none⟩).2.ledger =
      [demoViolationRecA, demoViolationRecB] ∧
    ((checkOrderSLAViolation demoSlaEnv 999999 demoOrderAllLate
        ⟨[], none⟩).2.ledger.filter
      (fun v => v.sku == (none : Option String))).length = 0 ∧
    (checkOrderSLAViolation demoSlaEnv 999999 demoOrderAllLate ⟨[], none⟩).2.orderSlaInfo =
      some { actualFulfillmentTime := 2890, isSLAMet := false, violationMinutes := 10,
             expectedFulfillmentTime := 2880 } ∧
    checkOrderSLAViolation demoSlaEnv 999999 demoOrderAllLate
        (checkOrderSLAViolation demoSlaEnv 999999 demoOrderAllLate ⟨[], none⟩).2 =
      (true, (checkOrderSLAViolation demoSlaEnv 999999 demoOrderAllLate
        ⟨[], none⟩).2) := by
  exact ⟨by decide, by decide, by decide, by decide, by decide⟩
